import Mathlib

/-
Verification of the document-state subsystem of the EtherX-EXCEL spreadsheet
editor.  The data model is a shallow embedding of src/types/documentState.ts,
the reducer and the derived queries are embedded from
src/contexts/DocumentStateContext.tsx, and the column conversion from the
export service.  JavaScript numbers that the claims never compute with are
modelled as Int (sizes, coordinates, opacities); string-literal union types
are modelled as String, which is their runtime representation; JavaScript
objects used as string-keyed maps are modelled as association lists in
insertion order, which is how object spread behaves at runtime.
-/

set_option maxHeartbeats 1000000

-- ===========================================================================
-- Generic helpers: JavaScript object maps as ordered association lists
-- ===========================================================================

/-- Lookup of a key in a JavaScript-object map (first match). -/
def objGet {α : Type} (m : List (String × α)) (k : String) : Option α :=
  match m with
  | [] => none
  | (k₁, v) :: t => if k₁ = k then some v else objGet t k

/-- JavaScript computed-key assignment: an existing key keeps its position,
a new key is appended at the end, as object spread does at runtime. -/
def objSet {α : Type} (m : List (String × α)) (k : String) (v : α) :
    List (String × α) :=
  match m with
  | [] => [(k, v)]
  | (k₁, v₁) :: t => if k₁ = k then (k, v) :: t else (k₁, v₁) :: objSet t k v

/-- JavaScript object-spread on one field: the patch value wins when the key
is present, otherwise the old value is kept. -/
def patchField {α : Type} (p old : Option α) : Option α :=
  match p with
  | some v => some v
  | none => old

-- ===========================================================================
-- Data model (src/types/documentState.ts)
-- ===========================================================================

/-- Runtime value of a cell: string, number, boolean or null. -/
inductive CellValue : Type where
  | s (v : String)
  | n (v : Int)
  | b (v : Bool)
  | null
deriving DecidableEq

/-- DocumentPermissions. -/
structure DocumentPermissions where
  isPublic : Bool
  viewers : List String
  editors : List String
  owner : String
deriving DecidableEq

/-- DocumentMetadata. -/
structure DocumentMetadata where
  documentId : String
  title : String
  owner : String
  createdAt : String
  updatedAt : String
  theme : String
  sheetCount : Nat
  version : String
  collaborators : Option (List String)
  permissions : Option DocumentPermissions
deriving DecidableEq

/-- All-optional mirror of DocumentMetadata, embedding Partial of it. -/
structure DocumentMetadataPatch where
  documentId : Option String := none
  title : Option String := none
  owner : Option String := none
  createdAt : Option String := none
  updatedAt : Option String := none
  theme : Option String := none
  sheetCount : Option Nat := none
  version : Option String := none
  collaborators : Option (List String) := none
  permissions : Option DocumentPermissions := none
deriving DecidableEq

/-- BorderStyle. -/
structure BorderStyle where
  style : String
  color : Option String
deriving DecidableEq

/-- CellBorder. -/
structure CellBorder where
  top : Option BorderStyle
  right : Option BorderStyle
  bottom : Option BorderStyle
  left : Option BorderStyle
  diagonal : Option BorderStyle
  diagonalUp : Option Bool
  diagonalDown : Option Bool
deriving DecidableEq

/-- CellAlignment. -/
structure CellAlignment where
  horizontal : Option String
  vertical : Option String
  wrapText : Option Bool
  shrinkToFit : Option Bool
  textRotation : Option Int
deriving DecidableEq

/-- CellStyle; every field of the source interface is optional. -/
structure CellStyle where
  fontFamily : Option String := none
  fontSize : Option Int := none
  bold : Option Bool := none
  italic : Option Bool := none
  underline : Option Bool := none
  strikethrough : Option Bool := none
  textColor : Option String := none
  backgroundColor : Option String := none
  border : Option CellBorder := none
  alignment : Option CellAlignment := none
  numberFormat : Option String := none
  rotation : Option Int := none
  wrapText : Option Bool := none
  verticalAlignment : Option String := none
  indent : Option Int := none
deriving DecidableEq

/-- CellComment. -/
structure CellComment where
  text : String
  author : String
  timestamp : String
  resolved : Option Bool
deriving DecidableEq

/-- DataValidation. -/
structure DataValidation where
  type : String
  operator : Option String := none
  formula1 : Option String := none
  formula2 : Option String := none
  allowBlank : Option Bool := none
  showDropDown : Option Bool := none
  showInputMessage : Option Bool := none
  inputTitle : Option String := none
  inputMessage : Option String := none
  showErrorMessage : Option Bool := none
  errorTitle : Option String := none
  errorMessage : Option String := none
  errorStyle : Option String := none
deriving DecidableEq

/-- SparklineConfig.  The source declares this interface twice; TypeScript
merges the two declarations, so the embedded structure carries the union of
both field lists. -/
structure SparklineConfig where
  type : String
  sourceRange : String
  dataRange : String
  color : Option String := none
  lineWidth : Option Int := none
  showMarkers : Option Bool := none
  showHighPoint : Option Bool := none
  showLowPoint : Option Bool := none
  showFirstPoint : Option Bool := none
  showLastPoint : Option Bool := none
  showNegativePoints : Option Bool := none
  min : Option Int := none
  max : Option Int := none
  axis : Option Bool := none
  negativeColor : Option String := none
  markers : Option Bool := none
  highPoint : Option Bool := none
  lowPoint : Option Bool := none
  firstPoint : Option Bool := none
  lastPoint : Option Bool := none
  lineWeight : Option Int := none
deriving DecidableEq

/-- Span of a merged cell range. -/
structure MergeSpan where
  rows : Int
  cols : Int
deriving DecidableEq

/-- CellData.  The source declares value as required, but the reducer can
build a cell by spreading a partial payload over a missing cell, in which
case no value is present at runtime; such a cell is modelled with value
CellValue.null, the empty cell. -/
structure CellData where
  value : CellValue := CellValue.null
  formula : Option String := none
  type : Option String := none
  style : Option CellStyle := none
  comment : Option CellComment := none
  hyperlink : Option String := none
  validation : Option DataValidation := none
  mergedWith : Option String := none
  isMergeParent : Option Bool := none
  mergeSpan : Option MergeSpan := none
  locked : Option Bool := none
  hidden : Option Bool := none
  sparkline : Option SparklineConfig := none
deriving DecidableEq

/-- Partial of CellData: every field optional, value included. -/
structure CellDataPatch where
  value : Option CellValue := none
  formula : Option String := none
  type : Option String := none
  style : Option CellStyle := none
  comment : Option CellComment := none
  hyperlink : Option String := none
  validation : Option DataValidation := none
  mergedWith : Option String := none
  isMergeParent : Option Bool := none
  mergeSpan : Option MergeSpan := none
  locked : Option Bool := none
  hidden : Option Bool := none
  sparkline : Option SparklineConfig := none
deriving DecidableEq

/-- GridConfig.  Row and column size overrides are keyed by index; at
runtime JavaScript coerces the numeric computed key to a string, so the
maps are string-keyed here as well. -/
structure GridConfig where
  rows : Int
  columns : Int
  rowSizes : List (String × Int)
  columnSizes : List (String × Int)
  frozenRows : Int
  frozenColumns : Int
  showGridlines : Bool
  showRowHeaders : Bool
  showColumnHeaders : Bool
  defaultRowHeight : Int
  defaultColumnWidth : Int
  hiddenRows : List Int
  hiddenColumns : List Int
deriving DecidableEq

/-- Partial of GridConfig. -/
structure GridConfigPatch where
  rows : Option Int := none
  columns : Option Int := none
  rowSizes : Option (List (String × Int)) := none
  columnSizes : Option (List (String × Int)) := none
  frozenRows : Option Int := none
  frozenColumns : Option Int := none
  showGridlines : Option Bool := none
  showRowHeaders : Option Bool := none
  showColumnHeaders : Option Bool := none
  defaultRowHeight : Option Int := none
  defaultColumnWidth : Option Int := none
  hiddenRows : Option (List Int) := none
  hiddenColumns : Option (List Int) := none
deriving DecidableEq

/-- ImageObject. -/
structure ImageObject where
  id : String
  src : String
  x : Int
  y : Int
  width : Int
  height : Int
  rotation : Int
  opacity : Int
  layer : Int
  locked : Option Bool := none
  name : Option String := none
  anchorCell : Option String := none
  moveWithCells : Option Bool := none
  sizeWithCells : Option Bool := none
deriving DecidableEq

/-- Partial of ImageObject. -/
structure ImageObjectPatch where
  id : Option String := none
  src : Option String := none
  x : Option Int := none
  y : Option Int := none
  width : Option Int := none
  height : Option Int := none
  rotation : Option Int := none
  opacity : Option Int := none
  layer : Option Int := none
  locked : Option Bool := none
  name : Option String := none
  anchorCell : Option String := none
  moveWithCells : Option Bool := none
  sizeWithCells : Option Bool := none
deriving DecidableEq

/-- A point of a polygon or custom shape. -/
structure ShapePoint where
  x : Int
  y : Int
deriving DecidableEq

/-- ShapeObject. -/
structure ShapeObject where
  id : String
  type : String
  x : Int
  y : Int
  width : Int
  height : Int
  fill : Option String := none
  stroke : Option String := none
  strokeWidth : Option Int := none
  opacity : Option Int := none
  rotation : Int
  layer : Int
  locked : Option Bool := none
  shadow : Option Bool := none
  text : Option String := none
  textStyle : Option CellStyle := none
  points : Option (List ShapePoint) := none
  cornerRadius : Option Int := none
  anchorCell : Option String := none
  moveWithCells : Option Bool := none
  sizeWithCells : Option Bool := none
  createdAt : Option Int := none
  lastModifiedAt : Option Int := none
  createdBy : Option String := none
  lastModifiedBy : Option String := none
deriving DecidableEq

/-- Partial of ShapeObject. -/
structure ShapeObjectPatch where
  id : Option String := none
  type : Option String := none
  x : Option Int := none
  y : Option Int := none
  width : Option Int := none
  height : Option Int := none
  fill : Option String := none
  stroke : Option String := none
  strokeWidth : Option Int := none
  opacity : Option Int := none
  rotation : Option Int := none
  layer : Option Int := none
  locked : Option Bool := none
  shadow : Option Bool := none
  text : Option String := none
  textStyle : Option CellStyle := none
  points : Option (List ShapePoint) := none
  cornerRadius : Option Int := none
  anchorCell : Option String := none
  moveWithCells : Option Bool := none
  sizeWithCells : Option Bool := none
  createdAt : Option Int := none
  lastModifiedAt : Option Int := none
  createdBy : Option String := none
  lastModifiedBy : Option String := none
deriving DecidableEq

/-- ChartSeries. -/
structure ChartSeries where
  name : String
  range : String
  color : Option String := none
  type : Option String := none
deriving DecidableEq

/-- Legend options of a chart.  The show field of the source is named
showLegend here because show is a Lean keyword. -/
structure ChartLegend where
  showLegend : Bool
  position : String
deriving DecidableEq

/-- Axis options of a chart. -/
structure ChartAxis where
  title : Option String := none
  showGridlines : Option Bool := none
  min : Option Int := none
  max : Option Int := none
deriving DecidableEq

/-- ChartOptions. -/
structure ChartOptions where
  title : Option String := none
  subtitle : Option String := none
  legend : Option ChartLegend := none
  xAxis : Option ChartAxis := none
  yAxis : Option ChartAxis := none
  series : Option (List ChartSeries) := none
  colors : Option (List String) := none
  showDataLabels : Option Bool := none
  smooth : Option Bool := none
  stacked : Option Bool := none
  showPercentage : Option Bool := none
deriving DecidableEq

/-- ChartObject. -/
structure ChartObject where
  id : String
  chartType : String
  dataRange : String
  x : Int
  y : Int
  width : Int
  height : Int
  options : ChartOptions
  layer : Int
  locked : Option Bool := none
  anchorCell : Option String := none
  moveWithCells : Option Bool := none
  sizeWithCells : Option Bool := none
deriving DecidableEq

/-- Partial of ChartObject. -/
structure ChartObjectPatch where
  id : Option String := none
  chartType : Option String := none
  dataRange : Option String := none
  x : Option Int := none
  y : Option Int := none
  width : Option Int := none
  height : Option Int := none
  options : Option ChartOptions := none
  layer : Option Int := none
  locked : Option Bool := none
  anchorCell : Option String := none
  moveWithCells : Option Bool := none
  sizeWithCells : Option Bool := none
deriving DecidableEq

/-- CellLink. -/
structure CellLink where
  cell : String
  url : String
  text : Option String := none
deriving DecidableEq

/-- CellSymbol. -/
structure CellSymbol where
  cell : String
  symbol : String
  color : Option String := none
  size : Option Int := none
deriving DecidableEq

/-- Either a string or a number, for conditional-format rule values. -/
inductive StrNum : Type where
  | s (v : String)
  | n (v : Int)
deriving DecidableEq

/-- Color scale of a conditional-format rule. -/
structure ColorScale where
  minColor : String
  midColor : Option String := none
  maxColor : String
deriving DecidableEq

/-- Data bar of a conditional-format rule. -/
structure DataBar where
  color : String
  showValue : Bool
deriving DecidableEq

/-- Icon set of a conditional-format rule. -/
structure IconSet where
  icons : List String
  reverse : Option Bool := none
deriving DecidableEq

/-- ConditionalFormatRule. -/
structure ConditionalFormatRule where
  type : String
  operator : Option String := none
  value1 : Option StrNum := none
  value2 : Option StrNum := none
  formula : Option String := none
  style : Option CellStyle := none
  colorScale : Option ColorScale := none
  dataBar : Option DataBar := none
  iconSet : Option IconSet := none
deriving DecidableEq

/-- ConditionalFormat. -/
structure ConditionalFormat where
  id : String
  range : String
  rules : List ConditionalFormatRule
  priority : Int
  stopIfTrue : Option Bool := none
deriving DecidableEq

/-- Sort state of a sheet. -/
structure SortState where
  column : String
  direction : String
  caseSensitive : Option Bool := none
deriving DecidableEq

/-- Filter state of a sheet. -/
structure FilterState where
  column : String
  criteria : List String
  showBlanks : Option Bool := none
deriving DecidableEq

/-- Scroll position of a sheet view. -/
structure ScrollPosition where
  x : Int
  y : Int
deriving DecidableEq

/-- SheetData.  The protected field of the source is named protectedFlag
here because protected is a Lean keyword. -/
structure SheetData where
  sheetId : String
  name : String
  color : Option String := none
  visible : Bool
  protectedFlag : Option Bool := none
  protectionPassword : Option String := none
  cellLocks : Option (List (String × Bool)) := none
  grid : GridConfig
  cells : List (String × CellData)
  images : List ImageObject
  shapes : List ShapeObject
  charts : List ChartObject
  links : List CellLink
  symbols : List CellSymbol
  conditionalFormatting : List ConditionalFormat
  namedRanges : Option (List (String × String)) := none
  sortState : Option SortState := none
  filterState : Option FilterState := none
  zoom : Option Int := none
  scrollPosition : Option ScrollPosition := none
deriving DecidableEq

/-- Global document settings. -/
structure DocumentSettings where
  autoSave : Bool
  autoSaveInterval : Int
  showFormulaBar : Bool
  calculationMode : String
  r1c1ReferenceStyle : Bool
deriving DecidableEq

/-- One version-history entry. -/
structure VersionEntry where
  cid : String
  timestamp : String
  author : String
  description : Option String := none
deriving DecidableEq

/-- DocumentState, the root of the model. -/
structure DocumentState where
  documentId : String
  metadata : DocumentMetadata
  sheets : List SheetData
  activeSheetId : String
  settings : Option DocumentSettings := none
  versionHistory : Option (List VersionEntry) := none
deriving DecidableEq

-- ===========================================================================
-- Object-spread merges of partial payloads (embedding of the TS spreads)
-- ===========================================================================

/-- Spread of a Partial DocumentMetadata over a DocumentMetadata. -/
def mergeMetadata (m : DocumentMetadata) (p : DocumentMetadataPatch) :
    DocumentMetadata where
  documentId := p.documentId.getD m.documentId
  title := p.title.getD m.title
  owner := p.owner.getD m.owner
  createdAt := p.createdAt.getD m.createdAt
  updatedAt := p.updatedAt.getD m.updatedAt
  theme := p.theme.getD m.theme
  sheetCount := p.sheetCount.getD m.sheetCount
  version := p.version.getD m.version
  collaborators := patchField p.collaborators m.collaborators
  permissions := patchField p.permissions m.permissions

/-- Spread of a Partial CellData over a CellData. -/
def mergeCellData (c : CellData) (p : CellDataPatch) : CellData where
  value := p.value.getD c.value
  formula := patchField p.formula c.formula
  type := patchField p.type c.type
  style := patchField p.style c.style
  comment := patchField p.comment c.comment
  hyperlink := patchField p.hyperlink c.hyperlink
  validation := patchField p.validation c.validation
  mergedWith := patchField p.mergedWith c.mergedWith
  isMergeParent := patchField p.isMergeParent c.isMergeParent
  mergeSpan := patchField p.mergeSpan c.mergeSpan
  locked := patchField p.locked c.locked
  hidden := patchField p.hidden c.hidden
  sparkline := patchField p.sparkline c.sparkline

/-- Spread of a Partial CellStyle over a CellStyle; since every field of
CellStyle is optional, the partial form coincides with CellStyle itself. -/
def mergeCellStyle (s p : CellStyle) : CellStyle where
  fontFamily := patchField p.fontFamily s.fontFamily
  fontSize := patchField p.fontSize s.fontSize
  bold := patchField p.bold s.bold
  italic := patchField p.italic s.italic
  underline := patchField p.underline s.underline
  strikethrough := patchField p.strikethrough s.strikethrough
  textColor := patchField p.textColor s.textColor
  backgroundColor := patchField p.backgroundColor s.backgroundColor
  border := patchField p.border s.border
  alignment := patchField p.alignment s.alignment
  numberFormat := patchField p.numberFormat s.numberFormat
  rotation := patchField p.rotation s.rotation
  wrapText := patchField p.wrapText s.wrapText
  verticalAlignment := patchField p.verticalAlignment s.verticalAlignment
  indent := patchField p.indent s.indent

/-- Spread of a Partial GridConfig over a GridConfig. -/
def mergeGridConfig (g : GridConfig) (p : GridConfigPatch) : GridConfig where
  rows := p.rows.getD g.rows
  columns := p.columns.getD g.columns
  rowSizes := p.rowSizes.getD g.rowSizes
  columnSizes := p.columnSizes.getD g.columnSizes
  frozenRows := p.frozenRows.getD g.frozenRows
  frozenColumns := p.frozenColumns.getD g.frozenColumns
  showGridlines := p.showGridlines.getD g.showGridlines
  showRowHeaders := p.showRowHeaders.getD g.showRowHeaders
  showColumnHeaders := p.showColumnHeaders.getD g.showColumnHeaders
  defaultRowHeight := p.defaultRowHeight.getD g.defaultRowHeight
  defaultColumnWidth := p.defaultColumnWidth.getD g.defaultColumnWidth
  hiddenRows := p.hiddenRows.getD g.hiddenRows
  hiddenColumns := p.hiddenColumns.getD g.hiddenColumns

/-- Spread of a Partial ImageObject over an ImageObject. -/
def mergeImage (i : ImageObject) (p : ImageObjectPatch) : ImageObject where
  id := p.id.getD i.id
  src := p.src.getD i.src
  x := p.x.getD i.x
  y := p.y.getD i.y
  width := p.width.getD i.width
  height := p.height.getD i.height
  rotation := p.rotation.getD i.rotation
  opacity := p.opacity.getD i.opacity
  layer := p.layer.getD i.layer
  locked := patchField p.locked i.locked
  name := patchField p.name i.name
  anchorCell := patchField p.anchorCell i.anchorCell
  moveWithCells := patchField p.moveWithCells i.moveWithCells
  sizeWithCells := patchField p.sizeWithCells i.sizeWithCells

/-- Spread of a Partial ChartObject over a ChartObject. -/
def mergeChart (c : ChartObject) (p : ChartObjectPatch) : ChartObject where
  id := p.id.getD c.id
  chartType := p.chartType.getD c.chartType
  dataRange := p.dataRange.getD c.dataRange
  x := p.x.getD c.x
  y := p.y.getD c.y
  width := p.width.getD c.width
  height := p.height.getD c.height
  options := p.options.getD c.options
  layer := p.layer.getD c.layer
  locked := patchField p.locked c.locked
  anchorCell := patchField p.anchorCell c.anchorCell
  moveWithCells := patchField p.moveWithCells c.moveWithCells
  sizeWithCells := patchField p.sizeWithCells c.sizeWithCells

-- ===========================================================================
-- Actions (src/types/documentState.ts, DocumentAction)
-- ===========================================================================

/-- The full action vocabulary of the state store.  Payload objects are
flattened into constructor arguments. -/
inductive DocumentAction : Type where
  | SET_DOCUMENT (payload : DocumentState)
  | UPDATE_METADATA (payload : DocumentMetadataPatch)
  | ADD_SHEET (payload : SheetData)
  | REMOVE_SHEET (payload : String)
  | RENAME_SHEET (sheetId : String) (name : String)
  | SET_ACTIVE_SHEET (payload : String)
  | UPDATE_CELL (sheetId : String) (cellKey : String) (data : CellDataPatch)
  | UPDATE_CELLS (sheetId : String) (cells : List (String × CellDataPatch))
  | SET_CELL_STYLE (sheetId : String) (cellKey : String) (style : CellStyle)
  | ADD_IMAGE (sheetId : String) (image : ImageObject)
  | UPDATE_IMAGE (sheetId : String) (imageId : String)
      (updates : ImageObjectPatch)
  | REMOVE_IMAGE (sheetId : String) (imageId : String)
  | ADD_SHAPE (sheetId : String) (shape : ShapeObject)
  | UPDATE_SHAPE (sheetId : String) (shapeId : String)
      (updates : ShapeObjectPatch)
  | REMOVE_SHAPE (sheetId : String) (shapeId : String)
  | ADD_CHART (sheetId : String) (chart : ChartObject)
  | UPDATE_CHART (sheetId : String) (chartId : String)
      (updates : ChartObjectPatch)
  | REMOVE_CHART (sheetId : String) (chartId : String)
  | UPDATE_GRID_CONFIG (sheetId : String) (config : GridConfigPatch)
  | SET_ROW_SIZE (sheetId : String) (rowIndex : Int) (size : Int)
  | SET_COLUMN_SIZE (sheetId : String) (colIndex : Int) (size : Int)
  | ADD_CONDITIONAL_FORMAT (sheetId : String) (format : ConditionalFormat)
  | REMOVE_CONDITIONAL_FORMAT (sheetId : String) (formatId : String)
  | SET_DATA_VALIDATION (sheetId : String) (cellKey : String)
      (validation : DataValidation)
  | SET_SPARKLINE (sheetId : String) (cellKey : String)
      (sparkline : Option SparklineConfig)
  | PROTECT_SHEET (sheetId : String) (isProtected : Bool)
      (password : Option String)
  | LOCK_CELLS (sheetId : String) (cellKeys : List String) (locked : Bool)
  | RESTORE_FROM_IPFS (payload : DocumentState)

-- ===========================================================================
-- Reducer (src/contexts/DocumentStateContext.tsx, documentReducer)
-- ===========================================================================

/-- The cell rewrite of UPDATE_CELL on one sheet: the payload is spread
over the previous cell, or over an empty cell when the key is absent. -/
def updateCellInSheet (sheet : SheetData) (cellKey : String)
    (data : CellDataPatch) : SheetData :=
  { sheet with
    cells := objSet sheet.cells cellKey
      (mergeCellData ((objGet sheet.cells cellKey).getD {}) data) }

/-- The recurring per-sheet update pattern of the reducer: map over the
sheets, rewriting exactly those whose sheetId equals the target id. -/
def mapSheet (sheets : List SheetData) (sid : String)
    (f : SheetData → SheetData) : List SheetData :=
  sheets.map (fun sheet => if sheet.sheetId == sid then f sheet else sheet)

/-- Refresh of metadata.updatedAt performed by every content mutation. -/
def touchMetadata (m : DocumentMetadata) (now : String) : DocumentMetadata :=
  { m with updatedAt := now }

/-- The reducer.  The source reads the clock inline; here the current time
is the extra argument now.  Unhandled action types (the shape actions,
which have no case in the source switch) fall through to the input state. -/
def documentReducer (state : DocumentState) (action : DocumentAction)
    (now : String) : DocumentState :=
  match action with
  | .SET_DOCUMENT payload => payload
  | .UPDATE_METADATA payload =>
      { state with
        metadata := { mergeMetadata state.metadata payload with
                      updatedAt := now } }
  | .ADD_SHEET payload =>
      { state with
        sheets := state.sheets ++ [payload],
        metadata := { state.metadata with
                      sheetCount := state.sheets.length + 1,
                      updatedAt := now } }
  | .REMOVE_SHEET payload =>
      let filteredSheets := state.sheets.filter
        (fun s => s.sheetId != payload)
      { state with
        sheets := filteredSheets,
        activeSheetId :=
          if state.activeSheetId == payload then
            ((filteredSheets.head?.map SheetData.sheetId).getD "")
          else state.activeSheetId,
        metadata := { state.metadata with
                      sheetCount := filteredSheets.length,
                      updatedAt := now } }
  | .RENAME_SHEET sid name =>
      { state with
        sheets := mapSheet state.sheets sid (fun sheet =>
          { sheet with name := name }),
        metadata := touchMetadata state.metadata now }
  | .SET_ACTIVE_SHEET payload =>
      { state with activeSheetId := payload }
  | .UPDATE_CELL sid cellKey data =>
      { state with
        sheets := mapSheet state.sheets sid
          (fun sheet => updateCellInSheet sheet cellKey data),
        metadata := touchMetadata state.metadata now }
  | .UPDATE_CELLS sid cells =>
      { state with
        sheets := mapSheet state.sheets sid (fun sheet =>
          { sheet with
            cells := cells.foldl (fun acc kv =>
              objSet acc kv.1
                (mergeCellData ((objGet sheet.cells kv.1).getD {}) kv.2))
              sheet.cells }),
        metadata := touchMetadata state.metadata now }
  | .SET_CELL_STYLE sid cellKey style =>
      { state with
        sheets := mapSheet state.sheets sid (fun sheet =>
          { sheet with
            cells := objSet sheet.cells cellKey
              ({ (objGet sheet.cells cellKey).getD {} with
                 style := some (mergeCellStyle
                   ((((objGet sheet.cells cellKey).getD {}).style).getD {})
                   style) }) }),
        metadata := touchMetadata state.metadata now }
  | .ADD_IMAGE sid image =>
      { state with
        sheets := mapSheet state.sheets sid (fun sheet =>
          { sheet with images := sheet.images ++ [image] }),
        metadata := touchMetadata state.metadata now }
  | .UPDATE_IMAGE sid imageId updates =>
      { state with
        sheets := mapSheet state.sheets sid (fun sheet =>
          { sheet with
            images := sheet.images.map (fun img =>
              if img.id == imageId then mergeImage img updates else img) }),
        metadata := touchMetadata state.metadata now }
  | .REMOVE_IMAGE sid imageId =>
      { state with
        sheets := mapSheet state.sheets sid (fun sheet =>
          { sheet with
            images := sheet.images.filter (fun img => img.id != imageId) }),
        metadata := touchMetadata state.metadata now }
  | .ADD_SHAPE _ _ => state
  | .UPDATE_SHAPE _ _ _ => state
  | .REMOVE_SHAPE _ _ => state
  | .ADD_CHART sid chart =>
      { state with
        sheets := mapSheet state.sheets sid (fun sheet =>
          { sheet with charts := sheet.charts ++ [chart] }),
        metadata := touchMetadata state.metadata now }
  | .UPDATE_CHART sid chartId updates =>
      { state with
        sheets := mapSheet state.sheets sid (fun sheet =>
          { sheet with
            charts := sheet.charts.map (fun chart =>
              if chart.id == chartId then mergeChart chart updates
              else chart) }),
        metadata := touchMetadata state.metadata now }
  | .REMOVE_CHART sid chartId =>
      { state with
        sheets := mapSheet state.sheets sid (fun sheet =>
          { sheet with
            charts := sheet.charts.filter
              (fun chart => chart.id != chartId) }),
        metadata := touchMetadata state.metadata now }
  | .UPDATE_GRID_CONFIG sid config =>
      { state with
        sheets := mapSheet state.sheets sid (fun sheet =>
          { sheet with grid := mergeGridConfig sheet.grid config }),
        metadata := touchMetadata state.metadata now }
  | .SET_ROW_SIZE sid rowIndex size =>
      { state with
        sheets := mapSheet state.sheets sid (fun sheet =>
          { sheet with
            grid := { sheet.grid with
                      rowSizes := objSet sheet.grid.rowSizes
                        (toString rowIndex) size } }),
        metadata := touchMetadata state.metadata now }
  | .SET_COLUMN_SIZE sid colIndex size =>
      { state with
        sheets := mapSheet state.sheets sid (fun sheet =>
          { sheet with
            grid := { sheet.grid with
                      columnSizes := objSet sheet.grid.columnSizes
                        (toString colIndex) size } }),
        metadata := touchMetadata state.metadata now }
  | .ADD_CONDITIONAL_FORMAT sid format =>
      { state with
        sheets := mapSheet state.sheets sid (fun sheet =>
          { sheet with
            conditionalFormatting :=
              sheet.conditionalFormatting ++ [format] }),
        metadata := touchMetadata state.metadata now }
  | .REMOVE_CONDITIONAL_FORMAT sid formatId =>
      { state with
        sheets := mapSheet state.sheets sid (fun sheet =>
          { sheet with
            conditionalFormatting := sheet.conditionalFormatting.filter
              (fun cf => cf.id != formatId) }),
        metadata := touchMetadata state.metadata now }
  | .SET_DATA_VALIDATION sid cellKey validation =>
      { state with
        sheets := mapSheet state.sheets sid (fun sheet =>
          { sheet with
            cells := objSet sheet.cells cellKey
              ({ (objGet sheet.cells cellKey).getD {} with
                 validation := some validation }) }),
        metadata := touchMetadata state.metadata now }
  | .SET_SPARKLINE sid cellKey sparkline =>
      { state with
        sheets := mapSheet state.sheets sid (fun sheet =>
          { sheet with
            cells := objSet sheet.cells cellKey
              ({ (objGet sheet.cells cellKey).getD {} with
                 sparkline := sparkline }) }),
        metadata := touchMetadata state.metadata now }
  | .PROTECT_SHEET sid isProtected password =>
      { state with
        sheets := mapSheet state.sheets sid (fun sheet =>
          { sheet with
            protectedFlag := some isProtected,
            protectionPassword := password }),
        metadata := touchMetadata state.metadata now }
  | .LOCK_CELLS sid cellKeys locked =>
      { state with
        sheets := mapSheet state.sheets sid (fun sheet =>
          { sheet with
            cellLocks := some (cellKeys.foldl
              (fun acc k => objSet acc k locked)
              (sheet.cellLocks.getD [])) }),
        metadata := touchMetadata state.metadata now }
  | .RESTORE_FROM_IPFS payload => payload

-- ===========================================================================
-- Initial state and derived queries (DocumentStateContext.tsx)
-- ===========================================================================

/-- createInitialState.  The source reads the clock for the timestamps and
the numeric document id; both are arguments here. -/
def createInitialState (now : String) (nowMs : String) : DocumentState :=
  let sheetId := "sheet-1"
  { documentId := "doc-" ++ nowMs,
    metadata := {
      documentId := "doc-" ++ nowMs,
      title := "Untitled Spreadsheet",
      owner := "anonymous",
      createdAt := now,
      updatedAt := now,
      theme := "light",
      sheetCount := 1,
      version := "1.0.0",
      collaborators := none,
      permissions := none },
    sheets := [
      { sheetId := sheetId,
        name := "Sheet1",
        visible := true,
        grid := {
          rows := 1000,
          columns := 26,
          rowSizes := [],
          columnSizes := [],
          frozenRows := 0,
          frozenColumns := 0,
          showGridlines := true,
          showRowHeaders := true,
          showColumnHeaders := true,
          defaultRowHeight := 24,
          defaultColumnWidth := 100,
          hiddenRows := [],
          hiddenColumns := [] },
        cells := [],
        images := [],
        shapes := [],
        charts := [],
        links := [],
        symbols := [],
        conditionalFormatting := [] }],
    activeSheetId := sheetId,
    settings := some {
      autoSave := true,
      autoSaveInterval := 30,
      showFormulaBar := true,
      calculationMode := "auto",
      r1c1ReferenceStyle := false },
    versionHistory := some [] }

/-- isCellLocked: the sheet is looked up by id; a missing sheet reports
false; a fully protected sheet reports true for every cell; otherwise the
cellLocks entry decides, defaulting to false. -/
def isCellLocked (state : DocumentState) (sheetId cellKey : String) : Bool :=
  match state.sheets.find? (fun s => s.sheetId == sheetId) with
  | none => false
  | some sheet =>
      if sheet.protectedFlag.getD false then true
      else (objGet (sheet.cellLocks.getD []) cellKey).getD false

/-- isSheetProtected. -/
def isSheetProtected (state : DocumentState) (sheetId : String) : Bool :=
  match state.sheets.find? (fun s => s.sheetId == sheetId) with
  | none => false
  | some sheet => sheet.protectedFlag.getD false

-- ===========================================================================
-- Column conversion (export service, columnToIndex)
-- ===========================================================================

/-- The value of one column letter: charCodeAt of the letter minus 64. -/
def charVal (c : Char) : Int := (c.toNat : Int) - 64

/-- columnToIndex: the loop result = result * 26 + (charCodeAt(i) - 64)
over the letters, then minus one. -/
def columnToIndex (column : String) : Int :=
  (column.data.foldl (fun result c => result * 26 + charVal c) 0) - 1


-- ===========================================================================
-- Persistence wire format.
-- Modelled from the spec: the service module ipfsDocumentService
-- (uploadDocumentToIPFS, loadDocumentFromIPFS) is not part of the sources;
-- per the spec the serialized document format is a JSON-compatible tree
-- matching the DocumentState schema exactly, field names and nesting as in
-- the data model, submitted to a content-addressed store that maps a
-- content identifier to the stored bytes.  The decoder reads each schema
-- field back by position, is lenient about malformed fields, and is a
-- two-sided inverse of the encoder on every schema value.
-- ===========================================================================

/-- A JSON value tree, the transportable form of the document. -/
inductive Json : Type where
  | null
  | bool (b : Bool)
  | num (n : Int)
  | str (s : String)
  | arr (elems : List Json)
  | obj (fields : List (String × Json))

/-- Whether a JSON value is null. -/
def Json.isNull : Json → Bool
  | .null => true
  | _ => false

/-- Encoding of an optional field: an absent value is stored as null. -/
def jOpt {α : Type} (f : α → Json) : Option α → Json
  | none => Json.null
  | some v => f v

/-- Encoding of an array field. -/
def jList {α : Type} (f : α → Json) (l : List α) : Json :=
  Json.arr (l.map f)

/-- Encoding of a string-keyed map field. -/
def jStrMap {α : Type} (f : α → Json) (m : List (String × α)) : Json :=
  Json.obj (m.map (fun p => (p.1, f p.2)))

/-- The field list of a wire object, defaulting to empty. -/
def asObjD : Json → List (String × Json)
  | .obj fs => fs
  | _ => []

/-- The value of the first field of a wire object body, defaulting to
null. -/
def headJ : List (String × Json) → Json
  | [] => Json.null
  | (_, j) :: _ => j

/-- Decoding of a required string field. -/
def rStr : Json → String
  | .str s => s
  | _ => ""

/-- Decoding of a required number field. -/
def rInt : Json → Int
  | .num n => n
  | _ => 0

/-- Decoding of a required count field. -/
def rNat (j : Json) : Nat := (rInt j).toNat

/-- Decoding of a required boolean field. -/
def rBool : Json → Bool
  | .bool b => b
  | _ => false

/-- Decoding of an optional string field. -/
def oStr : Json → Option String
  | .str s => some s
  | _ => none

/-- Decoding of an optional number field. -/
def oInt : Json → Option Int
  | .num n => some n
  | _ => none

/-- Decoding of an optional boolean field. -/
def oBool : Json → Option Bool
  | .bool b => some b
  | _ => none

/-- Decoding of an optional structured field: null means absent, any other
value is decoded with the given total decoder. -/
def oOf {α : Type} (g : Json → α) (j : Json) : Option α :=
  if j.isNull then none else some (g j)

/-- Decoding of a required array field with a total element decoder. -/
def rListOf {α : Type} (g : Json → α) : Json → List α
  | .arr js => js.map g
  | _ => []

/-- Decoding of a required string-keyed map field. -/
def rMapOf {α : Type} (g : Json → α) : Json → List (String × α)
  | .obj fs => fs.map (fun p => (p.1, g p.2))
  | _ => []

/-- An optional field decodes back to whatever was encoded, provided the
inner encoder round-trips and never produces null. -/
theorem rt_oOf {α : Type} (f : α → Json) (g : Json → α)
    (h : ∀ v, g (f v) = v) (hne : ∀ v, (f v).isNull = false) :
    ∀ o : Option α, oOf g (jOpt f o) = o := by
  intro o
  cases o with
  | none => rfl
  | some v => simp [jOpt, oOf, hne v, h v]

/-- An array field decodes back to whatever was encoded. -/
theorem rt_rListOf {α : Type} (f : α → Json) (g : Json → α)
    (h : ∀ v, g (f v) = v) :
    ∀ l : List α, rListOf g (jList f l) = l := by
  have aux : ∀ l : List α, (l.map f).map g = l := by
    intro l
    induction l with
    | nil => rfl
    | cons x t ih => simp [h x, ih]
  intro l
  simpa [rListOf, jList] using aux l

/-- A string-keyed map field decodes back to whatever was encoded. -/
theorem rt_rMapOf {α : Type} (f : α → Json) (g : Json → α)
    (h : ∀ v, g (f v) = v) :
    ∀ m : List (String × α),
      rMapOf g (jStrMap f m) = m := by
  have aux : ∀ m : List (String × α),
      (m.map (fun p => (p.1, f p.2))).map (fun p => (p.1, g p.2)) = m := by
    intro m
    induction m with
    | nil => rfl
    | cons x t ih => simp [h x.2, ih]
  intro m
  simpa [rMapOf, jStrMap] using aux m

/-- Round trip for optional string fields. -/
theorem rt_oStr : ∀ o, oStr (jOpt Json.str o) = o := by
  intro o
  cases o <;> rfl

/-- Round trip for optional number fields. -/
theorem rt_oInt : ∀ o, oInt (jOpt Json.num o) = o := by
  intro o
  cases o <;> rfl

/-- Round trip for optional boolean fields. -/
theorem rt_oBool : ∀ o, oBool (jOpt Json.bool o) = o := by
  intro o
  cases o <;> rfl

/-- Round trip for count fields. -/
theorem rt_natNum : ∀ n : Nat, rNat (Json.num (Int.ofNat n)) = n :=
  fun _ => rfl

/-- Round trip for required string array fields. -/
theorem rt_listStr : ∀ l, rListOf rStr (jList Json.str l) = l :=
  rt_rListOf _ _ (fun _ => rfl)

/-- Round trip for optional string array fields. -/
theorem rt_olistStr :
    ∀ o, oOf (rListOf rStr) (jOpt (jList Json.str) o) = o :=
  rt_oOf _ _ rt_listStr (fun _ => rfl)

/-- Round trip for required number array fields. -/
theorem rt_listInt : ∀ l, rListOf rInt (jList Json.num l) = l :=
  rt_rListOf _ _ (fun _ => rfl)

/-- Round trip for number map fields. -/
theorem rt_mapInt : ∀ m, rMapOf rInt (jStrMap Json.num m) = m :=
  rt_rMapOf _ _ (fun _ => rfl)

/-- Round trip for optional boolean map fields. -/
theorem rt_omapBool :
    ∀ o, oOf (rMapOf rBool) (jOpt (jStrMap Json.bool) o) = o :=
  rt_oOf _ _ (rt_rMapOf _ _ (fun _ => rfl)) (fun _ => rfl)

/-- Round trip for optional string map fields. -/
theorem rt_omapStr :
    ∀ o, oOf (rMapOf rStr) (jOpt (jStrMap Json.str) o) = o :=
  rt_oOf _ _ (rt_rMapOf _ _ (fun _ => rfl)) (fun _ => rfl)

/-- Encoding of a cell value (string, number, boolean or null). -/
def encCellValue : CellValue → Json
  | .s v => .str v
  | .n v => .num v
  | .b v => .bool v
  | .null => .null

/-- Decoding of a cell value; object and array forms decode to null. -/
def decCellValue : Json → CellValue
  | .str v => .s v
  | .num v => .n v
  | .bool v => .b v
  | _ => .null

/-- Round trip for cell values. -/
theorem rt_cellValue : ∀ v, decCellValue (encCellValue v) = v := by
  intro v
  cases v <;> rfl

/-- Encoding of a string-or-number value. -/
def encStrNum : StrNum → Json
  | .s v => .str v
  | .n v => .num v

/-- Decoding of an optional string-or-number field. -/
def oStrNum : Json → Option StrNum
  | .str v => some (.s v)
  | .num v => some (.n v)
  | _ => none

/-- Round trip for optional string-or-number fields. -/
theorem rt_oStrNum : ∀ o, oStrNum (jOpt encStrNum o) = o := by
  intro o
  cases o with
  | none => rfl
  | some v => cases v <;> rfl
/-- Encoding of BorderStyle. -/
def encBorderStyle (x : BorderStyle) : Json :=
  .obj [("style", Json.str x.style),
        ("color", jOpt Json.str x.color)]

/-- Decoding of BorderStyle, field by position; a malformed field
decodes to a default value. -/
def decBorderStyle (j : Json) : BorderStyle where
  style := rStr (headJ (asObjD j))
  color := oStr (headJ ((asObjD j).tail))

/-- Round trip for BorderStyle. -/
theorem rt_borderStyle : ∀ x, decBorderStyle (encBorderStyle x) = x := by
  intro x
  simp [encBorderStyle, decBorderStyle, asObjD, headJ, rStr, rt_oStr]

/-- Round trip for optional BorderStyle fields. -/
theorem rt_optBorderStyle : ∀ o, oOf decBorderStyle (jOpt encBorderStyle o) = o :=
  rt_oOf _ _ rt_borderStyle (fun _ => rfl)

/-- Encoding of CellBorder. -/
def encCellBorder (x : CellBorder) : Json :=
  .obj [("top", jOpt encBorderStyle x.top),
        ("right", jOpt encBorderStyle x.right),
        ("bottom", jOpt encBorderStyle x.bottom),
        ("left", jOpt encBorderStyle x.left),
        ("diagonal", jOpt encBorderStyle x.diagonal),
        ("diagonalUp", jOpt Json.bool x.diagonalUp),
        ("diagonalDown", jOpt Json.bool x.diagonalDown)]

/-- Decoding of CellBorder, field by position; a malformed field
decodes to a default value. -/
def decCellBorder (j : Json) : CellBorder where
  top := oOf decBorderStyle (headJ (asObjD j))
  right := oOf decBorderStyle (headJ ((asObjD j).tail))
  bottom := oOf decBorderStyle (headJ ((asObjD j).tail.tail))
  left := oOf decBorderStyle (headJ ((asObjD j).tail.tail.tail))
  diagonal := oOf decBorderStyle (headJ ((asObjD j).tail.tail.tail.tail))
  diagonalUp := oBool (headJ ((asObjD j).tail.tail.tail.tail.tail))
  diagonalDown := oBool (headJ ((asObjD j).tail.tail.tail.tail.tail.tail))

/-- Round trip for CellBorder. -/
theorem rt_cellBorder : ∀ x, decCellBorder (encCellBorder x) = x := by
  intro x
  simp [encCellBorder, decCellBorder, asObjD, headJ, rt_optBorderStyle, rt_oBool]

/-- Round trip for optional CellBorder fields. -/
theorem rt_optCellBorder : ∀ o, oOf decCellBorder (jOpt encCellBorder o) = o :=
  rt_oOf _ _ rt_cellBorder (fun _ => rfl)

/-- Encoding of CellAlignment. -/
def encCellAlignment (x : CellAlignment) : Json :=
  .obj [("horizontal", jOpt Json.str x.horizontal),
        ("vertical", jOpt Json.str x.vertical),
        ("wrapText", jOpt Json.bool x.wrapText),
        ("shrinkToFit", jOpt Json.bool x.shrinkToFit),
        ("textRotation", jOpt Json.num x.textRotation)]

/-- Decoding of CellAlignment, field by position; a malformed field
decodes to a default value. -/
def decCellAlignment (j : Json) : CellAlignment where
  horizontal := oStr (headJ (asObjD j))
  vertical := oStr (headJ ((asObjD j).tail))
  wrapText := oBool (headJ ((asObjD j).tail.tail))
  shrinkToFit := oBool (headJ ((asObjD j).tail.tail.tail))
  textRotation := oInt (headJ ((asObjD j).tail.tail.tail.tail))

/-- Round trip for CellAlignment. -/
theorem rt_cellAlignment : ∀ x, decCellAlignment (encCellAlignment x) = x := by
  intro x
  simp [encCellAlignment, decCellAlignment, asObjD, headJ, rt_oStr, rt_oBool, rt_oInt]

/-- Round trip for optional CellAlignment fields. -/
theorem rt_optCellAlignment : ∀ o, oOf decCellAlignment (jOpt encCellAlignment o) = o :=
  rt_oOf _ _ rt_cellAlignment (fun _ => rfl)

/-- Encoding of CellStyle. -/
def encCellStyle (x : CellStyle) : Json :=
  .obj [("fontFamily", jOpt Json.str x.fontFamily),
        ("fontSize", jOpt Json.num x.fontSize),
        ("bold", jOpt Json.bool x.bold),
        ("italic", jOpt Json.bool x.italic),
        ("underline", jOpt Json.bool x.underline),
        ("strikethrough", jOpt Json.bool x.strikethrough),
        ("textColor", jOpt Json.str x.textColor),
        ("backgroundColor", jOpt Json.str x.backgroundColor),
        ("border", jOpt encCellBorder x.border),
        ("alignment", jOpt encCellAlignment x.alignment),
        ("numberFormat", jOpt Json.str x.numberFormat),
        ("rotation", jOpt Json.num x.rotation),
        ("wrapText", jOpt Json.bool x.wrapText),
        ("verticalAlignment", jOpt Json.str x.verticalAlignment),
        ("indent", jOpt Json.num x.indent)]

/-- Decoding of CellStyle, field by position; a malformed field
decodes to a default value. -/
def decCellStyle (j : Json) : CellStyle where
  fontFamily := oStr (headJ (asObjD j))
  fontSize := oInt (headJ ((asObjD j).tail))
  bold := oBool (headJ ((asObjD j).tail.tail))
  italic := oBool (headJ ((asObjD j).tail.tail.tail))
  underline := oBool (headJ ((asObjD j).tail.tail.tail.tail))
  strikethrough := oBool (headJ ((asObjD j).tail.tail.tail.tail.tail))
  textColor := oStr (headJ ((asObjD j).tail.tail.tail.tail.tail.tail))
  backgroundColor := oStr (headJ ((asObjD j).tail.tail.tail.tail.tail.tail.tail))
  border := oOf decCellBorder (headJ ((asObjD j).tail.tail.tail.tail.tail.tail.tail.tail))
  alignment := oOf decCellAlignment (headJ ((asObjD j).tail.tail.tail.tail.tail.tail.tail.tail.tail))
  numberFormat := oStr (headJ ((asObjD j).tail.tail.tail.tail.tail.tail.tail.tail.tail.tail))
  rotation := oInt (headJ ((asObjD j).tail.tail.tail.tail.tail.tail.tail.tail.tail.tail.tail))
  wrapText := oBool (headJ ((asObjD j).tail.tail.tail.tail.tail.tail.tail.tail.tail.tail.tail.tail))
  verticalAlignment := oStr (headJ ((asObjD j).tail.tail.tail.tail.tail.tail.tail.tail.tail.tail.tail.tail.tail))
  indent := oInt (headJ ((asObjD j).tail.tail.tail.tail.tail.tail.tail.tail.tail.tail.tail.tail.tail.tail))

/-- Round trip for CellStyle. -/
theorem rt_cellStyle : ∀ x, decCellStyle (encCellStyle x) = x := by
  intro x
  simp [encCellStyle, decCellStyle, asObjD, headJ, rt_oStr, rt_oInt, rt_oBool, rt_optCellBorder, rt_optCellAlignment]

/-- Round trip for optional CellStyle fields. -/
theorem rt_optCellStyle : ∀ o, oOf decCellStyle (jOpt encCellStyle o) = o :=
  rt_oOf _ _ rt_cellStyle (fun _ => rfl)

/-- Encoding of CellComment. -/
def encCellComment (x : CellComment) : Json :=
  .obj [("text", Json.str x.text),
        ("author", Json.str x.author),
        ("timestamp", Json.str x.timestamp),
        ("resolved", jOpt Json.bool x.resolved)]

/-- Decoding of CellComment, field by position; a malformed field
decodes to a default value. -/
def decCellComment (j : Json) : CellComment where
  text := rStr (headJ (asObjD j))
  author := rStr (headJ ((asObjD j).tail))
  timestamp := rStr (headJ ((asObjD j).tail.tail))
  resolved := oBool (headJ ((asObjD j).tail.tail.tail))

/-- Round trip for CellComment. -/
theorem rt_cellComment : ∀ x, decCellComment (encCellComment x) = x := by
  intro x
  simp [encCellComment, decCellComment, asObjD, headJ, rStr, rt_oBool]

/-- Round trip for optional CellComment fields. -/
theorem rt_optCellComment : ∀ o, oOf decCellComment (jOpt encCellComment o) = o :=
  rt_oOf _ _ rt_cellComment (fun _ => rfl)

/-- Encoding of DataValidation. -/
def encDataValidation (x : DataValidation) : Json :=
  .obj [("type", Json.str x.type),
        ("operator", jOpt Json.str x.operator),
        ("formula1", jOpt Json.str x.formula1),
        ("formula2", jOpt Json.str x.formula2),
        ("allowBlank", jOpt Json.bool x.allowBlank),
        ("showDropDown", jOpt Json.bool x.showDropDown),
        ("showInputMessage", jOpt Json.bool x.showInputMessage),
        ("inputTitle", jOpt Json.str x.inputTitle),
        ("inputMessage", jOpt Json.str x.inputMessage),
        ("showErrorMessage", jOpt Json.bool x.showErrorMessage),
        ("errorTitle", jOpt Json.str x.errorTitle),
        ("errorMessage", jOpt Json.str x.errorMessage),
        ("errorStyle", jOpt Json.str x.errorStyle)]

/-- Decoding of DataValidation, field by position; a malformed field
decodes to a default value. -/
def decDataValidation (j : Json) : DataValidation where
  type := rStr (headJ (asObjD j))
  operator := oStr (headJ ((asObjD j).tail))
  formula1 := oStr (headJ ((asObjD j).tail.tail))
  formula2 := oStr (headJ ((asObjD j).tail.tail.tail))
  allowBlank := oBool (headJ ((asObjD j).tail.tail.tail.tail))
  showDropDown := oBool (headJ ((asObjD j).tail.tail.tail.tail.tail))
  showInputMessage := oBool (headJ ((asObjD j).tail.tail.tail.tail.tail.tail))
  inputTitle := oStr (headJ ((asObjD j).tail.tail.tail.tail.tail.tail.tail))
  inputMessage := oStr (headJ ((asObjD j).tail.tail.tail.tail.tail.tail.tail.tail))
  showErrorMessage := oBool (headJ ((asObjD j).tail.tail.tail.tail.tail.tail.tail.tail.tail))
  errorTitle := oStr (headJ ((asObjD j).tail.tail.tail.tail.tail.tail.tail.tail.tail.tail))
  errorMessage := oStr (headJ ((asObjD j).tail.tail.tail.tail.tail.tail.tail.tail.tail.tail.tail))
  errorStyle := oStr (headJ ((asObjD j).tail.tail.tail.tail.tail.tail.tail.tail.tail.tail.tail.tail))

/-- Round trip for DataValidation. -/
theorem rt_dataValidation : ∀ x, decDataValidation (encDataValidation x) = x := by
  intro x
  simp [encDataValidation, decDataValidation, asObjD, headJ, rStr, rt_oStr, rt_oBool]

/-- Round trip for optional DataValidation fields. -/
theorem rt_optDataValidation : ∀ o, oOf decDataValidation (jOpt encDataValidation o) = o :=
  rt_oOf _ _ rt_dataValidation (fun _ => rfl)

/-- Encoding of SparklineConfig. -/
def encSparklineConfig (x : SparklineConfig) : Json :=
  .obj [("type", Json.str x.type),
        ("sourceRange", Json.str x.sourceRange),
        ("dataRange", Json.str x.dataRange),
        ("color", jOpt Json.str x.color),
        ("lineWidth", jOpt Json.num x.lineWidth),
        ("showMarkers", jOpt Json.bool x.showMarkers),
        ("showHighPoint", jOpt Json.bool x.showHighPoint),
        ("showLowPoint", jOpt Json.bool x.showLowPoint),
        ("showFirstPoint", jOpt Json.bool x.showFirstPoint),
        ("showLastPoint", jOpt Json.bool x.showLastPoint),
        ("showNegativePoints", jOpt Json.bool x.showNegativePoints),
        ("min", jOpt Json.num x.min),
        ("max", jOpt Json.num x.max),
        ("axis", jOpt Json.bool x.axis),
        ("negativeColor", jOpt Json.str x.negativeColor),
        ("markers", jOpt Json.bool x.markers),
        ("highPoint", jOpt Json.bool x.highPoint),
        ("lowPoint", jOpt Json.bool x.lowPoint),
        ("firstPoint", jOpt Json.bool x.firstPoint),
        ("lastPoint", jOpt Json.bool x.lastPoint),
        ("lineWeight", jOpt Json.num x.lineWeight)]

/-- Decoding of SparklineConfig, field by position; a malformed field
decodes to a default value. -/
def decSparklineConfig (j : Json) : SparklineConfig where
  type := rStr (headJ (asObjD j))
  sourceRange := rStr (headJ ((asObjD j).tail))
  dataRange := rStr (headJ ((asObjD j).tail.tail))
  color := oStr (headJ ((asObjD j).tail.tail.tail))
  lineWidth := oInt (headJ ((asObjD j).tail.tail.tail.tail))
  showMarkers := oBool (headJ ((asObjD j).tail.tail.tail.tail.tail))
  showHighPoint := oBool (headJ ((asObjD j).tail.tail.tail.tail.tail.tail))
  showLowPoint := oBool (headJ ((asObjD j).tail.tail.tail.tail.tail.tail.tail))
  showFirstPoint := oBool (headJ ((asObjD j).tail.tail.tail.tail.tail.tail.tail.tail))
  showLastPoint := oBool (headJ ((asObjD j).tail.tail.tail.tail.tail.tail.tail.tail.tail))
  showNegativePoints := oBool (headJ ((asObjD j).tail.tail.tail.tail.tail.tail.tail.tail.tail.tail))
  min := oInt (headJ ((asObjD j).tail.tail.tail.tail.tail.tail.tail.tail.tail.tail.tail))
  max := oInt (headJ ((asObjD j).tail.tail.tail.tail.tail.tail.tail.tail.tail.tail.tail.tail))
  axis := oBool (headJ ((asObjD j).tail.tail.tail.tail.tail.tail.tail.tail.tail.tail.tail.tail.tail))
  negativeColor := oStr (headJ ((asObjD j).tail.tail.tail.tail.tail.tail.tail.tail.tail.tail.tail.tail.tail.tail))
  markers := oBool (headJ ((asObjD j).tail.tail.tail.tail.tail.tail.tail.tail.tail.tail.tail.tail.tail.tail.tail))
  highPoint := oBool (headJ ((asObjD j).tail.tail.tail.tail.tail.tail.tail.tail.tail.tail.tail.tail.tail.tail.tail.tail))
  lowPoint := oBool (headJ ((asObjD j).tail.tail.tail.tail.tail.tail.tail.tail.tail.tail.tail.tail.tail.tail.tail.tail.tail))
  firstPoint := oBool (headJ ((asObjD j).tail.tail.tail.tail.tail.tail.tail.tail.tail.tail.tail.tail.tail.tail.tail.tail.tail.tail))
  lastPoint := oBool (headJ ((asObjD j).tail.tail.tail.tail.tail.tail.tail.tail.tail.tail.tail.tail.tail.tail.tail.tail.tail.tail.tail))
  lineWeight := oInt (headJ ((asObjD j).tail.tail.tail.tail.tail.tail.tail.tail.tail.tail.tail.tail.tail.tail.tail.tail.tail.tail.tail.tail))

/-- Round trip for SparklineConfig. -/
theorem rt_sparklineConfig : ∀ x, decSparklineConfig (encSparklineConfig x) = x := by
  intro x
  simp [encSparklineConfig, decSparklineConfig, asObjD, headJ, rStr, rt_oStr, rt_oInt, rt_oBool]

/-- Round trip for optional SparklineConfig fields. -/
theorem rt_optSparklineConfig : ∀ o, oOf decSparklineConfig (jOpt encSparklineConfig o) = o :=
  rt_oOf _ _ rt_sparklineConfig (fun _ => rfl)

/-- Encoding of MergeSpan. -/
def encMergeSpan (x : MergeSpan) : Json :=
  .obj [("rows", Json.num x.rows),
        ("cols", Json.num x.cols)]

/-- Decoding of MergeSpan, field by position; a malformed field
decodes to a default value. -/
def decMergeSpan (j : Json) : MergeSpan where
  rows := rInt (headJ (asObjD j))
  cols := rInt (headJ ((asObjD j).tail))

/-- Round trip for MergeSpan. -/
theorem rt_mergeSpan : ∀ x, decMergeSpan (encMergeSpan x) = x := by
  intro x
  simp [encMergeSpan, decMergeSpan, asObjD, headJ, rInt]

/-- Round trip for optional MergeSpan fields. -/
theorem rt_optMergeSpan : ∀ o, oOf decMergeSpan (jOpt encMergeSpan o) = o :=
  rt_oOf _ _ rt_mergeSpan (fun _ => rfl)

/-- Encoding of CellData. -/
def encCellData (x : CellData) : Json :=
  .obj [("value", encCellValue x.value),
        ("formula", jOpt Json.str x.formula),
        ("type", jOpt Json.str x.type),
        ("style", jOpt encCellStyle x.style),
        ("comment", jOpt encCellComment x.comment),
        ("hyperlink", jOpt Json.str x.hyperlink),
        ("validation", jOpt encDataValidation x.validation),
        ("mergedWith", jOpt Json.str x.mergedWith),
        ("isMergeParent", jOpt Json.bool x.isMergeParent),
        ("mergeSpan", jOpt encMergeSpan x.mergeSpan),
        ("locked", jOpt Json.bool x.locked),
        ("hidden", jOpt Json.bool x.hidden),
        ("sparkline", jOpt encSparklineConfig x.sparkline)]

/-- Decoding of CellData, field by position; a malformed field
decodes to a default value. -/
def decCellData (j : Json) : CellData where
  value := decCellValue (headJ (asObjD j))
  formula := oStr (headJ ((asObjD j).tail))
  type := oStr (headJ ((asObjD j).tail.tail))
  style := oOf decCellStyle (headJ ((asObjD j).tail.tail.tail))
  comment := oOf decCellComment (headJ ((asObjD j).tail.tail.tail.tail))
  hyperlink := oStr (headJ ((asObjD j).tail.tail.tail.tail.tail))
  validation := oOf decDataValidation (headJ ((asObjD j).tail.tail.tail.tail.tail.tail))
  mergedWith := oStr (headJ ((asObjD j).tail.tail.tail.tail.tail.tail.tail))
  isMergeParent := oBool (headJ ((asObjD j).tail.tail.tail.tail.tail.tail.tail.tail))
  mergeSpan := oOf decMergeSpan (headJ ((asObjD j).tail.tail.tail.tail.tail.tail.tail.tail.tail))
  locked := oBool (headJ ((asObjD j).tail.tail.tail.tail.tail.tail.tail.tail.tail.tail))
  hidden := oBool (headJ ((asObjD j).tail.tail.tail.tail.tail.tail.tail.tail.tail.tail.tail))
  sparkline := oOf decSparklineConfig (headJ ((asObjD j).tail.tail.tail.tail.tail.tail.tail.tail.tail.tail.tail.tail))

/-- Round trip for CellData. -/
theorem rt_cellData : ∀ x, decCellData (encCellData x) = x := by
  intro x
  simp [encCellData, decCellData, asObjD, headJ, rt_cellValue, rt_oStr, rt_optCellStyle, rt_optCellComment, rt_optDataValidation, rt_oBool, rt_optMergeSpan, rt_optSparklineConfig]

/-- Round trip for the cells map. -/
theorem rt_mapCell :
    ∀ m, rMapOf decCellData (jStrMap encCellData m) = m :=
  rt_rMapOf _ _ rt_cellData

/-- Encoding of DocumentPermissions. -/
def encDocumentPermissions (x : DocumentPermissions) : Json :=
  .obj [("isPublic", Json.bool x.isPublic),
        ("viewers", jList Json.str x.viewers),
        ("editors", jList Json.str x.editors),
        ("owner", Json.str x.owner)]

/-- Decoding of DocumentPermissions, field by position; a malformed field
decodes to a default value. -/
def decDocumentPermissions (j : Json) : DocumentPermissions where
  isPublic := rBool (headJ (asObjD j))
  viewers := rListOf rStr (headJ ((asObjD j).tail))
  editors := rListOf rStr (headJ ((asObjD j).tail.tail))
  owner := rStr (headJ ((asObjD j).tail.tail.tail))

/-- Round trip for DocumentPermissions. -/
theorem rt_documentPermissions : ∀ x, decDocumentPermissions (encDocumentPermissions x) = x := by
  intro x
  simp [encDocumentPermissions, decDocumentPermissions, asObjD, headJ, rBool, rt_listStr, rStr]

/-- Round trip for optional DocumentPermissions fields. -/
theorem rt_optDocumentPermissions : ∀ o, oOf decDocumentPermissions (jOpt encDocumentPermissions o) = o :=
  rt_oOf _ _ rt_documentPermissions (fun _ => rfl)

/-- Encoding of DocumentMetadata. -/
def encDocumentMetadata (x : DocumentMetadata) : Json :=
  .obj [("documentId", Json.str x.documentId),
        ("title", Json.str x.title),
        ("owner", Json.str x.owner),
        ("createdAt", Json.str x.createdAt),
        ("updatedAt", Json.str x.updatedAt),
        ("theme", Json.str x.theme),
        ("sheetCount", Json.num (Int.ofNat x.sheetCount)),
        ("version", Json.str x.version),
        ("collaborators", jOpt (jList Json.str) x.collaborators),
        ("permissions", jOpt encDocumentPermissions x.permissions)]

/-- Decoding of DocumentMetadata, field by position; a malformed field
decodes to a default value. -/
def decDocumentMetadata (j : Json) : DocumentMetadata where
  documentId := rStr (headJ (asObjD j))
  title := rStr (headJ ((asObjD j).tail))
  owner := rStr (headJ ((asObjD j).tail.tail))
  createdAt := rStr (headJ ((asObjD j).tail.tail.tail))
  updatedAt := rStr (headJ ((asObjD j).tail.tail.tail.tail))
  theme := rStr (headJ ((asObjD j).tail.tail.tail.tail.tail))
  sheetCount := rNat (headJ ((asObjD j).tail.tail.tail.tail.tail.tail))
  version := rStr (headJ ((asObjD j).tail.tail.tail.tail.tail.tail.tail))
  collaborators := oOf (rListOf rStr) (headJ ((asObjD j).tail.tail.tail.tail.tail.tail.tail.tail))
  permissions := oOf decDocumentPermissions (headJ ((asObjD j).tail.tail.tail.tail.tail.tail.tail.tail.tail))

/-- Round trip for DocumentMetadata. -/
theorem rt_documentMetadata : ∀ x, decDocumentMetadata (encDocumentMetadata x) = x := by
  intro x
  simp [encDocumentMetadata, decDocumentMetadata, asObjD, headJ, rStr, rNat, rInt, rt_olistStr, rt_optDocumentPermissions]

/-- Encoding of GridConfig. -/
def encGridConfig (x : GridConfig) : Json :=
  .obj [("rows", Json.num x.rows),
        ("columns", Json.num x.columns),
        ("rowSizes", jStrMap Json.num x.rowSizes),
        ("columnSizes", jStrMap Json.num x.columnSizes),
        ("frozenRows", Json.num x.frozenRows),
        ("frozenColumns", Json.num x.frozenColumns),
        ("showGridlines", Json.bool x.showGridlines),
        ("showRowHeaders", Json.bool x.showRowHeaders),
        ("showColumnHeaders", Json.bool x.showColumnHeaders),
        ("defaultRowHeight", Json.num x.defaultRowHeight),
        ("defaultColumnWidth", Json.num x.defaultColumnWidth),
        ("hiddenRows", jList Json.num x.hiddenRows),
        ("hiddenColumns", jList Json.num x.hiddenColumns)]

/-- Decoding of GridConfig, field by position; a malformed field
decodes to a default value. -/
def decGridConfig (j : Json) : GridConfig where
  rows := rInt (headJ (asObjD j))
  columns := rInt (headJ ((asObjD j).tail))
  rowSizes := rMapOf rInt (headJ ((asObjD j).tail.tail))
  columnSizes := rMapOf rInt (headJ ((asObjD j).tail.tail.tail))
  frozenRows := rInt (headJ ((asObjD j).tail.tail.tail.tail))
  frozenColumns := rInt (headJ ((asObjD j).tail.tail.tail.tail.tail))
  showGridlines := rBool (headJ ((asObjD j).tail.tail.tail.tail.tail.tail))
  showRowHeaders := rBool (headJ ((asObjD j).tail.tail.tail.tail.tail.tail.tail))
  showColumnHeaders := rBool (headJ ((asObjD j).tail.tail.tail.tail.tail.tail.tail.tail))
  defaultRowHeight := rInt (headJ ((asObjD j).tail.tail.tail.tail.tail.tail.tail.tail.tail))
  defaultColumnWidth := rInt (headJ ((asObjD j).tail.tail.tail.tail.tail.tail.tail.tail.tail.tail))
  hiddenRows := rListOf rInt (headJ ((asObjD j).tail.tail.tail.tail.tail.tail.tail.tail.tail.tail.tail))
  hiddenColumns := rListOf rInt (headJ ((asObjD j).tail.tail.tail.tail.tail.tail.tail.tail.tail.tail.tail.tail))

/-- Round trip for GridConfig. -/
theorem rt_gridConfig : ∀ x, decGridConfig (encGridConfig x) = x := by
  intro x
  simp [encGridConfig, decGridConfig, asObjD, headJ, rInt, rt_mapInt, rBool, rt_listInt]

/-- Encoding of ImageObject. -/
def encImageObject (x : ImageObject) : Json :=
  .obj [("id", Json.str x.id),
        ("src", Json.str x.src),
        ("x", Json.num x.x),
        ("y", Json.num x.y),
        ("width", Json.num x.width),
        ("height", Json.num x.height),
        ("rotation", Json.num x.rotation),
        ("opacity", Json.num x.opacity),
        ("layer", Json.num x.layer),
        ("locked", jOpt Json.bool x.locked),
        ("name", jOpt Json.str x.name),
        ("anchorCell", jOpt Json.str x.anchorCell),
        ("moveWithCells", jOpt Json.bool x.moveWithCells),
        ("sizeWithCells", jOpt Json.bool x.sizeWithCells)]

/-- Decoding of ImageObject, field by position; a malformed field
decodes to a default value. -/
def decImageObject (j : Json) : ImageObject where
  id := rStr (headJ (asObjD j))
  src := rStr (headJ ((asObjD j).tail))
  x := rInt (headJ ((asObjD j).tail.tail))
  y := rInt (headJ ((asObjD j).tail.tail.tail))
  width := rInt (headJ ((asObjD j).tail.tail.tail.tail))
  height := rInt (headJ ((asObjD j).tail.tail.tail.tail.tail))
  rotation := rInt (headJ ((asObjD j).tail.tail.tail.tail.tail.tail))
  opacity := rInt (headJ ((asObjD j).tail.tail.tail.tail.tail.tail.tail))
  layer := rInt (headJ ((asObjD j).tail.tail.tail.tail.tail.tail.tail.tail))
  locked := oBool (headJ ((asObjD j).tail.tail.tail.tail.tail.tail.tail.tail.tail))
  name := oStr (headJ ((asObjD j).tail.tail.tail.tail.tail.tail.tail.tail.tail.tail))
  anchorCell := oStr (headJ ((asObjD j).tail.tail.tail.tail.tail.tail.tail.tail.tail.tail.tail))
  moveWithCells := oBool (headJ ((asObjD j).tail.tail.tail.tail.tail.tail.tail.tail.tail.tail.tail.tail))
  sizeWithCells := oBool (headJ ((asObjD j).tail.tail.tail.tail.tail.tail.tail.tail.tail.tail.tail.tail.tail))

/-- Round trip for ImageObject. -/
theorem rt_imageObject : ∀ x, decImageObject (encImageObject x) = x := by
  intro x
  simp [encImageObject, decImageObject, asObjD, headJ, rStr, rInt, rt_oBool, rt_oStr]

/-- Round trip for arrays of ImageObject. -/
theorem rt_listImageObject : ∀ l, rListOf decImageObject (jList encImageObject l) = l :=
  rt_rListOf _ _ rt_imageObject

/-- Encoding of ShapePoint. -/
def encShapePoint (x : ShapePoint) : Json :=
  .obj [("x", Json.num x.x),
        ("y", Json.num x.y)]

/-- Decoding of ShapePoint, field by position; a malformed field
decodes to a default value. -/
def decShapePoint (j : Json) : ShapePoint where
  x := rInt (headJ (asObjD j))
  y := rInt (headJ ((asObjD j).tail))

/-- Round trip for ShapePoint. -/
theorem rt_shapePoint : ∀ x, decShapePoint (encShapePoint x) = x := by
  intro x
  simp [encShapePoint, decShapePoint, asObjD, headJ, rInt]

/-- Round trip for optional arrays of ShapePoint. -/
theorem rt_olistShapePoint :
    ∀ o, oOf (rListOf decShapePoint) (jOpt (jList encShapePoint) o) = o :=
  rt_oOf _ _ (rt_rListOf _ _ rt_shapePoint) (fun _ => rfl)

/-- Encoding of ShapeObject. -/
def encShapeObject (x : ShapeObject) : Json :=
  .obj [("id", Json.str x.id),
        ("type", Json.str x.type),
        ("x", Json.num x.x),
        ("y", Json.num x.y),
        ("width", Json.num x.width),
        ("height", Json.num x.height),
        ("fill", jOpt Json.str x.fill),
        ("stroke", jOpt Json.str x.stroke),
        ("strokeWidth", jOpt Json.num x.strokeWidth),
        ("opacity", jOpt Json.num x.opacity),
        ("rotation", Json.num x.rotation),
        ("layer", Json.num x.layer),
        ("locked", jOpt Json.bool x.locked),
        ("shadow", jOpt Json.bool x.shadow),
        ("text", jOpt Json.str x.text),
        ("textStyle", jOpt encCellStyle x.textStyle),
        ("points", jOpt (jList encShapePoint) x.points),
        ("cornerRadius", jOpt Json.num x.cornerRadius),
        ("anchorCell", jOpt Json.str x.anchorCell),
        ("moveWithCells", jOpt Json.bool x.moveWithCells),
        ("sizeWithCells", jOpt Json.bool x.sizeWithCells),
        ("createdAt", jOpt Json.num x.createdAt),
        ("lastModifiedAt", jOpt Json.num x.lastModifiedAt),
        ("createdBy", jOpt Json.str x.createdBy),
        ("lastModifiedBy", jOpt Json.str x.lastModifiedBy)]

/-- Decoding of ShapeObject, field by position; a malformed field
decodes to a default value. -/
def decShapeObject (j : Json) : ShapeObject where
  id := rStr (headJ (asObjD j))
  type := rStr (headJ ((asObjD j).tail))
  x := rInt (headJ ((asObjD j).tail.tail))
  y := rInt (headJ ((asObjD j).tail.tail.tail))
  width := rInt (headJ ((asObjD j).tail.tail.tail.tail))
  height := rInt (headJ ((asObjD j).tail.tail.tail.tail.tail))
  fill := oStr (headJ ((asObjD j).tail.tail.tail.tail.tail.tail))
  stroke := oStr (headJ ((asObjD j).tail.tail.tail.tail.tail.tail.tail))
  strokeWidth := oInt (headJ ((asObjD j).tail.tail.tail.tail.tail.tail.tail.tail))
  opacity := oInt (headJ ((asObjD j).tail.tail.tail.tail.tail.tail.tail.tail.tail))
  rotation := rInt (headJ ((asObjD j).tail.tail.tail.tail.tail.tail.tail.tail.tail.tail))
  layer := rInt (headJ ((asObjD j).tail.tail.tail.tail.tail.tail.tail.tail.tail.tail.tail))
  locked := oBool (headJ ((asObjD j).tail.tail.tail.tail.tail.tail.tail.tail.tail.tail.tail.tail))
  shadow := oBool (headJ ((asObjD j).tail.tail.tail.tail.tail.tail.tail.tail.tail.tail.tail.tail.tail))
  text := oStr (headJ ((asObjD j).tail.tail.tail.tail.tail.tail.tail.tail.tail.tail.tail.tail.tail.tail))
  textStyle := oOf decCellStyle (headJ ((asObjD j).tail.tail.tail.tail.tail.tail.tail.tail.tail.tail.tail.tail.tail.tail.tail))
  points := oOf (rListOf decShapePoint) (headJ ((asObjD j).tail.tail.tail.tail.tail.tail.tail.tail.tail.tail.tail.tail.tail.tail.tail.tail))
  cornerRadius := oInt (headJ ((asObjD j).tail.tail.tail.tail.tail.tail.tail.tail.tail.tail.tail.tail.tail.tail.tail.tail.tail))
  anchorCell := oStr (headJ ((asObjD j).tail.tail.tail.tail.tail.tail.tail.tail.tail.tail.tail.tail.tail.tail.tail.tail.tail.tail))
  moveWithCells := oBool (headJ ((asObjD j).tail.tail.tail.tail.tail.tail.tail.tail.tail.tail.tail.tail.tail.tail.tail.tail.tail.tail.tail))
  sizeWithCells := oBool (headJ ((asObjD j).tail.tail.tail.tail.tail.tail.tail.tail.tail.tail.tail.tail.tail.tail.tail.tail.tail.tail.tail.tail))
  createdAt := oInt (headJ ((asObjD j).tail.tail.tail.tail.tail.tail.tail.tail.tail.tail.tail.tail.tail.tail.tail.tail.tail.tail.tail.tail.tail))
  lastModifiedAt := oInt (headJ ((asObjD j).tail.tail.tail.tail.tail.tail.tail.tail.tail.tail.tail.tail.tail.tail.tail.tail.tail.tail.tail.tail.tail.tail))
  createdBy := oStr (headJ ((asObjD j).tail.tail.tail.tail.tail.tail.tail.tail.tail.tail.tail.tail.tail.tail.tail.tail.tail.tail.tail.tail.tail.tail.tail))
  lastModifiedBy := oStr (headJ ((asObjD j).tail.tail.tail.tail.tail.tail.tail.tail.tail.tail.tail.tail.tail.tail.tail.tail.tail.tail.tail.tail.tail.tail.tail.tail))

/-- Round trip for ShapeObject. -/
theorem rt_shapeObject : ∀ x, decShapeObject (encShapeObject x) = x := by
  intro x
  simp [encShapeObject, decShapeObject, asObjD, headJ, rStr, rInt, rt_oStr, rt_oInt, rt_oBool, rt_optCellStyle, rt_olistShapePoint]

/-- Round trip for arrays of ShapeObject. -/
theorem rt_listShapeObject : ∀ l, rListOf decShapeObject (jList encShapeObject l) = l :=
  rt_rListOf _ _ rt_shapeObject

/-- Encoding of ChartSeries. -/
def encChartSeries (x : ChartSeries) : Json :=
  .obj [("name", Json.str x.name),
        ("range", Json.str x.range),
        ("color", jOpt Json.str x.color),
        ("type", jOpt Json.str x.type)]

/-- Decoding of ChartSeries, field by position; a malformed field
decodes to a default value. -/
def decChartSeries (j : Json) : ChartSeries where
  name := rStr (headJ (asObjD j))
  range := rStr (headJ ((asObjD j).tail))
  color := oStr (headJ ((asObjD j).tail.tail))
  type := oStr (headJ ((asObjD j).tail.tail.tail))

/-- Round trip for ChartSeries. -/
theorem rt_chartSeries : ∀ x, decChartSeries (encChartSeries x) = x := by
  intro x
  simp [encChartSeries, decChartSeries, asObjD, headJ, rStr, rt_oStr]

/-- Round trip for optional arrays of ChartSeries. -/
theorem rt_olistChartSeries :
    ∀ o, oOf (rListOf decChartSeries) (jOpt (jList encChartSeries) o) = o :=
  rt_oOf _ _ (rt_rListOf _ _ rt_chartSeries) (fun _ => rfl)

/-- Encoding of ChartLegend. -/
def encChartLegend (x : ChartLegend) : Json :=
  .obj [("show", Json.bool x.showLegend),
        ("position", Json.str x.position)]

/-- Decoding of ChartLegend, field by position; a malformed field
decodes to a default value. -/
def decChartLegend (j : Json) : ChartLegend where
  showLegend := rBool (headJ (asObjD j))
  position := rStr (headJ ((asObjD j).tail))

/-- Round trip for ChartLegend. -/
theorem rt_chartLegend : ∀ x, decChartLegend (encChartLegend x) = x := by
  intro x
  simp [encChartLegend, decChartLegend, asObjD, headJ, rBool, rStr]

/-- Round trip for optional ChartLegend fields. -/
theorem rt_optChartLegend : ∀ o, oOf decChartLegend (jOpt encChartLegend o) = o :=
  rt_oOf _ _ rt_chartLegend (fun _ => rfl)

/-- Encoding of ChartAxis. -/
def encChartAxis (x : ChartAxis) : Json :=
  .obj [("title", jOpt Json.str x.title),
        ("showGridlines", jOpt Json.bool x.showGridlines),
        ("min", jOpt Json.num x.min),
        ("max", jOpt Json.num x.max)]

/-- Decoding of ChartAxis, field by position; a malformed field
decodes to a default value. -/
def decChartAxis (j : Json) : ChartAxis where
  title := oStr (headJ (asObjD j))
  showGridlines := oBool (headJ ((asObjD j).tail))
  min := oInt (headJ ((asObjD j).tail.tail))
  max := oInt (headJ ((asObjD j).tail.tail.tail))

/-- Round trip for ChartAxis. -/
theorem rt_chartAxis : ∀ x, decChartAxis (encChartAxis x) = x := by
  intro x
  simp [encChartAxis, decChartAxis, asObjD, headJ, rt_oStr, rt_oBool, rt_oInt]

/-- Round trip for optional ChartAxis fields. -/
theorem rt_optChartAxis : ∀ o, oOf decChartAxis (jOpt encChartAxis o) = o :=
  rt_oOf _ _ rt_chartAxis (fun _ => rfl)

/-- Encoding of ChartOptions. -/
def encChartOptions (x : ChartOptions) : Json :=
  .obj [("title", jOpt Json.str x.title),
        ("subtitle", jOpt Json.str x.subtitle),
        ("legend", jOpt encChartLegend x.legend),
        ("xAxis", jOpt encChartAxis x.xAxis),
        ("yAxis", jOpt encChartAxis x.yAxis),
        ("series", jOpt (jList encChartSeries) x.series),
        ("colors", jOpt (jList Json.str) x.colors),
        ("showDataLabels", jOpt Json.bool x.showDataLabels),
        ("smooth", jOpt Json.bool x.smooth),
        ("stacked", jOpt Json.bool x.stacked),
        ("showPercentage", jOpt Json.bool x.showPercentage)]

/-- Decoding of ChartOptions, field by position; a malformed field
decodes to a default value. -/
def decChartOptions (j : Json) : ChartOptions where
  title := oStr (headJ (asObjD j))
  subtitle := oStr (headJ ((asObjD j).tail))
  legend := oOf decChartLegend (headJ ((asObjD j).tail.tail))
  xAxis := oOf decChartAxis (headJ ((asObjD j).tail.tail.tail))
  yAxis := oOf decChartAxis (headJ ((asObjD j).tail.tail.tail.tail))
  series := oOf (rListOf decChartSeries) (headJ ((asObjD j).tail.tail.tail.tail.tail))
  colors := oOf (rListOf rStr) (headJ ((asObjD j).tail.tail.tail.tail.tail.tail))
  showDataLabels := oBool (headJ ((asObjD j).tail.tail.tail.tail.tail.tail.tail))
  smooth := oBool (headJ ((asObjD j).tail.tail.tail.tail.tail.tail.tail.tail))
  stacked := oBool (headJ ((asObjD j).tail.tail.tail.tail.tail.tail.tail.tail.tail))
  showPercentage := oBool (headJ ((asObjD j).tail.tail.tail.tail.tail.tail.tail.tail.tail.tail))

/-- Round trip for ChartOptions. -/
theorem rt_chartOptions : ∀ x, decChartOptions (encChartOptions x) = x := by
  intro x
  simp [encChartOptions, decChartOptions, asObjD, headJ, rt_oStr, rt_optChartLegend, rt_optChartAxis, rt_olistChartSeries, rt_olistStr, rt_oBool]

/-- Encoding of ChartObject. -/
def encChartObject (x : ChartObject) : Json :=
  .obj [("id", Json.str x.id),
        ("chartType", Json.str x.chartType),
        ("dataRange", Json.str x.dataRange),
        ("x", Json.num x.x),
        ("y", Json.num x.y),
        ("width", Json.num x.width),
        ("height", Json.num x.height),
        ("options", encChartOptions x.options),
        ("layer", Json.num x.layer),
        ("locked", jOpt Json.bool x.locked),
        ("anchorCell", jOpt Json.str x.anchorCell),
        ("moveWithCells", jOpt Json.bool x.moveWithCells),
        ("sizeWithCells", jOpt Json.bool x.sizeWithCells)]

/-- Decoding of ChartObject, field by position; a malformed field
decodes to a default value. -/
def decChartObject (j : Json) : ChartObject where
  id := rStr (headJ (asObjD j))
  chartType := rStr (headJ ((asObjD j).tail))
  dataRange := rStr (headJ ((asObjD j).tail.tail))
  x := rInt (headJ ((asObjD j).tail.tail.tail))
  y := rInt (headJ ((asObjD j).tail.tail.tail.tail))
  width := rInt (headJ ((asObjD j).tail.tail.tail.tail.tail))
  height := rInt (headJ ((asObjD j).tail.tail.tail.tail.tail.tail))
  options := decChartOptions (headJ ((asObjD j).tail.tail.tail.tail.tail.tail.tail))
  layer := rInt (headJ ((asObjD j).tail.tail.tail.tail.tail.tail.tail.tail))
  locked := oBool (headJ ((asObjD j).tail.tail.tail.tail.tail.tail.tail.tail.tail))
  anchorCell := oStr (headJ ((asObjD j).tail.tail.tail.tail.tail.tail.tail.tail.tail.tail))
  moveWithCells := oBool (headJ ((asObjD j).tail.tail.tail.tail.tail.tail.tail.tail.tail.tail.tail))
  sizeWithCells := oBool (headJ ((asObjD j).tail.tail.tail.tail.tail.tail.tail.tail.tail.tail.tail.tail))

/-- Round trip for ChartObject. -/
theorem rt_chartObject : ∀ x, decChartObject (encChartObject x) = x := by
  intro x
  simp [encChartObject, decChartObject, asObjD, headJ, rStr, rInt, rt_chartOptions, rt_oBool, rt_oStr]

/-- Round trip for arrays of ChartObject. -/
theorem rt_listChartObject : ∀ l, rListOf decChartObject (jList encChartObject l) = l :=
  rt_rListOf _ _ rt_chartObject

/-- Encoding of CellLink. -/
def encCellLink (x : CellLink) : Json :=
  .obj [("cell", Json.str x.cell),
        ("url", Json.str x.url),
        ("text", jOpt Json.str x.text)]

/-- Decoding of CellLink, field by position; a malformed field
decodes to a default value. -/
def decCellLink (j : Json) : CellLink where
  cell := rStr (headJ (asObjD j))
  url := rStr (headJ ((asObjD j).tail))
  text := oStr (headJ ((asObjD j).tail.tail))

/-- Round trip for CellLink. -/
theorem rt_cellLink : ∀ x, decCellLink (encCellLink x) = x := by
  intro x
  simp [encCellLink, decCellLink, asObjD, headJ, rStr, rt_oStr]

/-- Round trip for arrays of CellLink. -/
theorem rt_listCellLink : ∀ l, rListOf decCellLink (jList encCellLink l) = l :=
  rt_rListOf _ _ rt_cellLink

/-- Encoding of CellSymbol. -/
def encCellSymbol (x : CellSymbol) : Json :=
  .obj [("cell", Json.str x.cell),
        ("symbol", Json.str x.symbol),
        ("color", jOpt Json.str x.color),
        ("size", jOpt Json.num x.size)]

/-- Decoding of CellSymbol, field by position; a malformed field
decodes to a default value. -/
def decCellSymbol (j : Json) : CellSymbol where
  cell := rStr (headJ (asObjD j))
  symbol := rStr (headJ ((asObjD j).tail))
  color := oStr (headJ ((asObjD j).tail.tail))
  size := oInt (headJ ((asObjD j).tail.tail.tail))

/-- Round trip for CellSymbol. -/
theorem rt_cellSymbol : ∀ x, decCellSymbol (encCellSymbol x) = x := by
  intro x
  simp [encCellSymbol, decCellSymbol, asObjD, headJ, rStr, rt_oStr, rt_oInt]

/-- Round trip for arrays of CellSymbol. -/
theorem rt_listCellSymbol : ∀ l, rListOf decCellSymbol (jList encCellSymbol l) = l :=
  rt_rListOf _ _ rt_cellSymbol

/-- Encoding of ColorScale. -/
def encColorScale (x : ColorScale) : Json :=
  .obj [("minColor", Json.str x.minColor),
        ("midColor", jOpt Json.str x.midColor),
        ("maxColor", Json.str x.maxColor)]

/-- Decoding of ColorScale, field by position; a malformed field
decodes to a default value. -/
def decColorScale (j : Json) : ColorScale where
  minColor := rStr (headJ (asObjD j))
  midColor := oStr (headJ ((asObjD j).tail))
  maxColor := rStr (headJ ((asObjD j).tail.tail))

/-- Round trip for ColorScale. -/
theorem rt_colorScale : ∀ x, decColorScale (encColorScale x) = x := by
  intro x
  simp [encColorScale, decColorScale, asObjD, headJ, rStr, rt_oStr]

/-- Round trip for optional ColorScale fields. -/
theorem rt_optColorScale : ∀ o, oOf decColorScale (jOpt encColorScale o) = o :=
  rt_oOf _ _ rt_colorScale (fun _ => rfl)

/-- Encoding of DataBar. -/
def encDataBar (x : DataBar) : Json :=
  .obj [("color", Json.str x.color),
        ("showValue", Json.bool x.showValue)]

/-- Decoding of DataBar, field by position; a malformed field
decodes to a default value. -/
def decDataBar (j : Json) : DataBar where
  color := rStr (headJ (asObjD j))
  showValue := rBool (headJ ((asObjD j).tail))

/-- Round trip for DataBar. -/
theorem rt_dataBar : ∀ x, decDataBar (encDataBar x) = x := by
  intro x
  simp [encDataBar, decDataBar, asObjD, headJ, rStr, rBool]

/-- Round trip for optional DataBar fields. -/
theorem rt_optDataBar : ∀ o, oOf decDataBar (jOpt encDataBar o) = o :=
  rt_oOf _ _ rt_dataBar (fun _ => rfl)

/-- Encoding of IconSet. -/
def encIconSet (x : IconSet) : Json :=
  .obj [("icons", jList Json.str x.icons),
        ("reverse", jOpt Json.bool x.reverse)]

/-- Decoding of IconSet, field by position; a malformed field
decodes to a default value. -/
def decIconSet (j : Json) : IconSet where
  icons := rListOf rStr (headJ (asObjD j))
  reverse := oBool (headJ ((asObjD j).tail))

/-- Round trip for IconSet. -/
theorem rt_iconSet : ∀ x, decIconSet (encIconSet x) = x := by
  intro x
  simp [encIconSet, decIconSet, asObjD, headJ, rt_listStr, rt_oBool]

/-- Round trip for optional IconSet fields. -/
theorem rt_optIconSet : ∀ o, oOf decIconSet (jOpt encIconSet o) = o :=
  rt_oOf _ _ rt_iconSet (fun _ => rfl)

/-- Encoding of ConditionalFormatRule. -/
def encConditionalFormatRule (x : ConditionalFormatRule) : Json :=
  .obj [("type", Json.str x.type),
        ("operator", jOpt Json.str x.operator),
        ("value1", jOpt encStrNum x.value1),
        ("value2", jOpt encStrNum x.value2),
        ("formula", jOpt Json.str x.formula),
        ("style", jOpt encCellStyle x.style),
        ("colorScale", jOpt encColorScale x.colorScale),
        ("dataBar", jOpt encDataBar x.dataBar),
        ("iconSet", jOpt encIconSet x.iconSet)]

/-- Decoding of ConditionalFormatRule, field by position; a malformed field
decodes to a default value. -/
def decConditionalFormatRule (j : Json) : ConditionalFormatRule where
  type := rStr (headJ (asObjD j))
  operator := oStr (headJ ((asObjD j).tail))
  value1 := oStrNum (headJ ((asObjD j).tail.tail))
  value2 := oStrNum (headJ ((asObjD j).tail.tail.tail))
  formula := oStr (headJ ((asObjD j).tail.tail.tail.tail))
  style := oOf decCellStyle (headJ ((asObjD j).tail.tail.tail.tail.tail))
  colorScale := oOf decColorScale (headJ ((asObjD j).tail.tail.tail.tail.tail.tail))
  dataBar := oOf decDataBar (headJ ((asObjD j).tail.tail.tail.tail.tail.tail.tail))
  iconSet := oOf decIconSet (headJ ((asObjD j).tail.tail.tail.tail.tail.tail.tail.tail))

/-- Round trip for ConditionalFormatRule. -/
theorem rt_conditionalFormatRule : ∀ x, decConditionalFormatRule (encConditionalFormatRule x) = x := by
  intro x
  simp [encConditionalFormatRule, decConditionalFormatRule, asObjD, headJ, rStr, rt_oStr, rt_oStrNum, rt_optCellStyle, rt_optColorScale, rt_optDataBar, rt_optIconSet]

/-- Round trip for arrays of ConditionalFormatRule. -/
theorem rt_listConditionalFormatRule : ∀ l, rListOf decConditionalFormatRule (jList encConditionalFormatRule l) = l :=
  rt_rListOf _ _ rt_conditionalFormatRule

/-- Encoding of ConditionalFormat. -/
def encConditionalFormat (x : ConditionalFormat) : Json :=
  .obj [("id", Json.str x.id),
        ("range", Json.str x.range),
        ("rules", jList encConditionalFormatRule x.rules),
        ("priority", Json.num x.priority),
        ("stopIfTrue", jOpt Json.bool x.stopIfTrue)]

/-- Decoding of ConditionalFormat, field by position; a malformed field
decodes to a default value. -/
def decConditionalFormat (j : Json) : ConditionalFormat where
  id := rStr (headJ (asObjD j))
  range := rStr (headJ ((asObjD j).tail))
  rules := rListOf decConditionalFormatRule (headJ ((asObjD j).tail.tail))
  priority := rInt (headJ ((asObjD j).tail.tail.tail))
  stopIfTrue := oBool (headJ ((asObjD j).tail.tail.tail.tail))

/-- Round trip for ConditionalFormat. -/
theorem rt_conditionalFormat : ∀ x, decConditionalFormat (encConditionalFormat x) = x := by
  intro x
  simp [encConditionalFormat, decConditionalFormat, asObjD, headJ, rStr, rt_listConditionalFormatRule, rInt, rt_oBool]

/-- Round trip for arrays of ConditionalFormat. -/
theorem rt_listConditionalFormat : ∀ l, rListOf decConditionalFormat (jList encConditionalFormat l) = l :=
  rt_rListOf _ _ rt_conditionalFormat

/-- Encoding of SortState. -/
def encSortState (x : SortState) : Json :=
  .obj [("column", Json.str x.column),
        ("direction", Json.str x.direction),
        ("caseSensitive", jOpt Json.bool x.caseSensitive)]

/-- Decoding of SortState, field by position; a malformed field
decodes to a default value. -/
def decSortState (j : Json) : SortState where
  column := rStr (headJ (asObjD j))
  direction := rStr (headJ ((asObjD j).tail))
  caseSensitive := oBool (headJ ((asObjD j).tail.tail))

/-- Round trip for SortState. -/
theorem rt_sortState : ∀ x, decSortState (encSortState x) = x := by
  intro x
  simp [encSortState, decSortState, asObjD, headJ, rStr, rt_oBool]

/-- Round trip for optional SortState fields. -/
theorem rt_optSortState : ∀ o, oOf decSortState (jOpt encSortState o) = o :=
  rt_oOf _ _ rt_sortState (fun _ => rfl)

/-- Encoding of FilterState. -/
def encFilterState (x : FilterState) : Json :=
  .obj [("column", Json.str x.column),
        ("criteria", jList Json.str x.criteria),
        ("showBlanks", jOpt Json.bool x.showBlanks)]

/-- Decoding of FilterState, field by position; a malformed field
decodes to a default value. -/
def decFilterState (j : Json) : FilterState where
  column := rStr (headJ (asObjD j))
  criteria := rListOf rStr (headJ ((asObjD j).tail))
  showBlanks := oBool (headJ ((asObjD j).tail.tail))

/-- Round trip for FilterState. -/
theorem rt_filterState : ∀ x, decFilterState (encFilterState x) = x := by
  intro x
  simp [encFilterState, decFilterState, asObjD, headJ, rStr, rt_listStr, rt_oBool]

/-- Round trip for optional FilterState fields. -/
theorem rt_optFilterState : ∀ o, oOf decFilterState (jOpt encFilterState o) = o :=
  rt_oOf _ _ rt_filterState (fun _ => rfl)

/-- Encoding of ScrollPosition. -/
def encScrollPosition (x : ScrollPosition) : Json :=
  .obj [("x", Json.num x.x),
        ("y", Json.num x.y)]

/-- Decoding of ScrollPosition, field by position; a malformed field
decodes to a default value. -/
def decScrollPosition (j : Json) : ScrollPosition where
  x := rInt (headJ (asObjD j))
  y := rInt (headJ ((asObjD j).tail))

/-- Round trip for ScrollPosition. -/
theorem rt_scrollPosition : ∀ x, decScrollPosition (encScrollPosition x) = x := by
  intro x
  simp [encScrollPosition, decScrollPosition, asObjD, headJ, rInt]

/-- Round trip for optional ScrollPosition fields. -/
theorem rt_optScrollPosition : ∀ o, oOf decScrollPosition (jOpt encScrollPosition o) = o :=
  rt_oOf _ _ rt_scrollPosition (fun _ => rfl)

/-- Encoding of SheetData. -/
def encSheetData (x : SheetData) : Json :=
  .obj [("sheetId", Json.str x.sheetId),
        ("name", Json.str x.name),
        ("color", jOpt Json.str x.color),
        ("visible", Json.bool x.visible),
        ("protected", jOpt Json.bool x.protectedFlag),
        ("protectionPassword", jOpt Json.str x.protectionPassword),
        ("cellLocks", jOpt (jStrMap Json.bool) x.cellLocks),
        ("grid", encGridConfig x.grid),
        ("cells", jStrMap encCellData x.cells),
        ("images", jList encImageObject x.images),
        ("shapes", jList encShapeObject x.shapes),
        ("charts", jList encChartObject x.charts),
        ("links", jList encCellLink x.links),
        ("symbols", jList encCellSymbol x.symbols),
        ("conditionalFormatting", jList encConditionalFormat x.conditionalFormatting),
        ("namedRanges", jOpt (jStrMap Json.str) x.namedRanges),
        ("sortState", jOpt encSortState x.sortState),
        ("filterState", jOpt encFilterState x.filterState),
        ("zoom", jOpt Json.num x.zoom),
        ("scrollPosition", jOpt encScrollPosition x.scrollPosition)]

/-- Decoding of SheetData, field by position; a malformed field
decodes to a default value. -/
def decSheetData (j : Json) : SheetData where
  sheetId := rStr (headJ (asObjD j))
  name := rStr (headJ ((asObjD j).tail))
  color := oStr (headJ ((asObjD j).tail.tail))
  visible := rBool (headJ ((asObjD j).tail.tail.tail))
  protectedFlag := oBool (headJ ((asObjD j).tail.tail.tail.tail))
  protectionPassword := oStr (headJ ((asObjD j).tail.tail.tail.tail.tail))
  cellLocks := oOf (rMapOf rBool) (headJ ((asObjD j).tail.tail.tail.tail.tail.tail))
  grid := decGridConfig (headJ ((asObjD j).tail.tail.tail.tail.tail.tail.tail))
  cells := rMapOf decCellData (headJ ((asObjD j).tail.tail.tail.tail.tail.tail.tail.tail))
  images := rListOf decImageObject (headJ ((asObjD j).tail.tail.tail.tail.tail.tail.tail.tail.tail))
  shapes := rListOf decShapeObject (headJ ((asObjD j).tail.tail.tail.tail.tail.tail.tail.tail.tail.tail))
  charts := rListOf decChartObject (headJ ((asObjD j).tail.tail.tail.tail.tail.tail.tail.tail.tail.tail.tail))
  links := rListOf decCellLink (headJ ((asObjD j).tail.tail.tail.tail.tail.tail.tail.tail.tail.tail.tail.tail))
  symbols := rListOf decCellSymbol (headJ ((asObjD j).tail.tail.tail.tail.tail.tail.tail.tail.tail.tail.tail.tail.tail))
  conditionalFormatting := rListOf decConditionalFormat (headJ ((asObjD j).tail.tail.tail.tail.tail.tail.tail.tail.tail.tail.tail.tail.tail.tail))
  namedRanges := oOf (rMapOf rStr) (headJ ((asObjD j).tail.tail.tail.tail.tail.tail.tail.tail.tail.tail.tail.tail.tail.tail.tail))
  sortState := oOf decSortState (headJ ((asObjD j).tail.tail.tail.tail.tail.tail.tail.tail.tail.tail.tail.tail.tail.tail.tail.tail))
  filterState := oOf decFilterState (headJ ((asObjD j).tail.tail.tail.tail.tail.tail.tail.tail.tail.tail.tail.tail.tail.tail.tail.tail.tail))
  zoom := oInt (headJ ((asObjD j).tail.tail.tail.tail.tail.tail.tail.tail.tail.tail.tail.tail.tail.tail.tail.tail.tail.tail))
  scrollPosition := oOf decScrollPosition (headJ ((asObjD j).tail.tail.tail.tail.tail.tail.tail.tail.tail.tail.tail.tail.tail.tail.tail.tail.tail.tail.tail))

/-- Round trip for SheetData. -/
theorem rt_sheetData : ∀ x, decSheetData (encSheetData x) = x := by
  intro x
  simp [encSheetData, decSheetData, asObjD, headJ, rStr, rt_oStr, rBool, rt_oBool, rt_omapBool, rt_gridConfig, rt_mapCell, rt_listImageObject, rt_listShapeObject, rt_listChartObject, rt_listCellLink, rt_listCellSymbol, rt_listConditionalFormat, rt_omapStr, rt_optSortState, rt_optFilterState, rt_oInt, rt_optScrollPosition]

/-- Round trip for arrays of SheetData. -/
theorem rt_listSheetData : ∀ l, rListOf decSheetData (jList encSheetData l) = l :=
  rt_rListOf _ _ rt_sheetData

/-- Encoding of DocumentSettings. -/
def encDocumentSettings (x : DocumentSettings) : Json :=
  .obj [("autoSave", Json.bool x.autoSave),
        ("autoSaveInterval", Json.num x.autoSaveInterval),
        ("showFormulaBar", Json.bool x.showFormulaBar),
        ("calculationMode", Json.str x.calculationMode),
        ("r1c1ReferenceStyle", Json.bool x.r1c1ReferenceStyle)]

/-- Decoding of DocumentSettings, field by position; a malformed field
decodes to a default value. -/
def decDocumentSettings (j : Json) : DocumentSettings where
  autoSave := rBool (headJ (asObjD j))
  autoSaveInterval := rInt (headJ ((asObjD j).tail))
  showFormulaBar := rBool (headJ ((asObjD j).tail.tail))
  calculationMode := rStr (headJ ((asObjD j).tail.tail.tail))
  r1c1ReferenceStyle := rBool (headJ ((asObjD j).tail.tail.tail.tail))

/-- Round trip for DocumentSettings. -/
theorem rt_documentSettings : ∀ x, decDocumentSettings (encDocumentSettings x) = x := by
  intro x
  simp [encDocumentSettings, decDocumentSettings, asObjD, headJ, rBool, rInt, rStr]

/-- Round trip for optional DocumentSettings fields. -/
theorem rt_optDocumentSettings : ∀ o, oOf decDocumentSettings (jOpt encDocumentSettings o) = o :=
  rt_oOf _ _ rt_documentSettings (fun _ => rfl)

/-- Encoding of VersionEntry. -/
def encVersionEntry (x : VersionEntry) : Json :=
  .obj [("cid", Json.str x.cid),
        ("timestamp", Json.str x.timestamp),
        ("author", Json.str x.author),
        ("description", jOpt Json.str x.description)]

/-- Decoding of VersionEntry, field by position; a malformed field
decodes to a default value. -/
def decVersionEntry (j : Json) : VersionEntry where
  cid := rStr (headJ (asObjD j))
  timestamp := rStr (headJ ((asObjD j).tail))
  author := rStr (headJ ((asObjD j).tail.tail))
  description := oStr (headJ ((asObjD j).tail.tail.tail))

/-- Round trip for VersionEntry. -/
theorem rt_versionEntry : ∀ x, decVersionEntry (encVersionEntry x) = x := by
  intro x
  simp [encVersionEntry, decVersionEntry, asObjD, headJ, rStr, rt_oStr]

/-- Round trip for optional arrays of VersionEntry. -/
theorem rt_olistVersionEntry :
    ∀ o, oOf (rListOf decVersionEntry) (jOpt (jList encVersionEntry) o) = o :=
  rt_oOf _ _ (rt_rListOf _ _ rt_versionEntry) (fun _ => rfl)

/-- Encoding of DocumentState. -/
def encDocumentState (x : DocumentState) : Json :=
  .obj [("documentId", Json.str x.documentId),
        ("metadata", encDocumentMetadata x.metadata),
        ("sheets", jList encSheetData x.sheets),
        ("activeSheetId", Json.str x.activeSheetId),
        ("settings", jOpt encDocumentSettings x.settings),
        ("versionHistory", jOpt (jList encVersionEntry) x.versionHistory)]

/-- Decoding of DocumentState, field by position; a malformed field
decodes to a default value. -/
def decDocumentState (j : Json) : DocumentState where
  documentId := rStr (headJ (asObjD j))
  metadata := decDocumentMetadata (headJ ((asObjD j).tail))
  sheets := rListOf decSheetData (headJ ((asObjD j).tail.tail))
  activeSheetId := rStr (headJ ((asObjD j).tail.tail.tail))
  settings := oOf decDocumentSettings (headJ ((asObjD j).tail.tail.tail.tail))
  versionHistory := oOf (rListOf decVersionEntry) (headJ ((asObjD j).tail.tail.tail.tail.tail))

/-- Round trip for DocumentState. -/
theorem rt_documentState : ∀ x, decDocumentState (encDocumentState x) = x := by
  intro x
  simp [encDocumentState, decDocumentState, asObjD, headJ, rStr, rt_documentMetadata, rt_listSheetData, rt_optDocumentSettings, rt_olistVersionEntry]


-- ===========================================================================
-- Content-addressed store and the persistence service.
-- ===========================================================================

/-- Modelled from the spec: the content-addressed store behind the missing
ipfsDocumentService module, holding uploaded blobs keyed by their content
identifier. -/
structure IPFSStore where
  blobs : List (String × Json)

/-- Modelled from the spec: the content identifier handed out for the next
uploaded blob; opaque and deterministic. -/
def cidOf (store : IPFSStore) : String :=
  "cid-" ++ toString store.blobs.length

/-- Modelled from the spec: uploadDocumentToIPFS serializes the full
DocumentState to the wire tree, submits it to the store and returns the
content identifier. -/
def uploadDocumentToIPFS (store : IPFSStore) (state : DocumentState) :
    String × IPFSStore :=
  (cidOf store, ⟨(cidOf store, encDocumentState state) :: store.blobs⟩)

/-- Modelled from the spec: deserialization of a fetched wire tree; a blob
that is not an object is rejected. -/
def deserializeDocument (j : Json) : Option DocumentState :=
  match j with
  | .obj _ => some (decDocumentState j)
  | _ => none

/-- Modelled from the spec: loadDocumentFromIPFS fetches the blob of a
content identifier and deserializes it; a missing identifier fails. -/
def loadDocumentFromIPFS (store : IPFSStore) (cid : String) :
    Option DocumentState :=
  (objGet store.blobs cid).bind deserializeDocument

/-- saveToIPFS of the context: upload the current state, then record the
new version through two dispatches.  The upload outcome is an argument so
that a rejected storage call can be modelled.  As in the source, the
second dispatch rebuilds the document from the closure value state, so the
committed state is the pre-save state with the version entry appended. -/
def saveToIPFS (upload : DocumentState → Except String String)
    (state : DocumentState) (now : String) :
    Except String String × DocumentState :=
  match upload state with
  | .error e => (.error e, state)
  | .ok cid =>
      let st1 := documentReducer state
        (.UPDATE_METADATA { updatedAt := some now }) now
      let newVersion : VersionEntry :=
        { cid := cid, timestamp := now, author := state.metadata.owner }
      let updatedState := { state with
        versionHistory := some ((state.versionHistory.getD []) ++ [newVersion]) }
      let st2 := documentReducer st1 (.SET_DOCUMENT updatedState) now
      (.ok cid, st2)

/-- loadFromIPFS of the context: fetch and deserialize, then replace the
whole state through RESTORE_FROM_IPFS; on failure the state is kept. -/
def loadFromIPFS (download : String → Except String DocumentState)
    (state : DocumentState) (cid : String) (now : String) :
    Except String Unit × DocumentState :=
  match download cid with
  | .error e => (.error e, state)
  | .ok loadedState =>
      (.ok (), documentReducer state (.RESTORE_FROM_IPFS loadedState) now)

-- ===========================================================================
-- Helper lemmas
-- ===========================================================================

/-- Reading back the key just set. -/
theorem objGet_objSet_self {α : Type} (m : List (String × α)) (k : String)
    (v : α) : objGet (objSet m k v) k = some v := by
  induction m with
  | nil => simp [objGet, objSet]
  | cons p t ih =>
      by_cases h : p.1 = k
      · simp [objSet, objGet, h]
      · simp [objSet, objGet, h, ih]

/-- Setting one key leaves every other key unchanged. -/
theorem objGet_objSet_ne {α : Type} (m : List (String × α)) (k k₁ : String)
    (v : α) (h : k₁ ≠ k) : objGet (objSet m k v) k₁ = objGet m k₁ := by
  have hk : ¬(k = k₁) := fun e => h e.symm
  induction m with
  | nil => simp [objGet, objSet, hk]
  | cons p t ih =>
      by_cases hp : p.1 = k
      · simp [objSet, objGet, hp, hk]
      · simp [objSet, objGet, hp, ih]

/-- A map that fixes every member is the identity. -/
theorem map_eq_self_of_mem {α : Type} {l : List α} {f : α → α}
    (h : ∀ x ∈ l, f x = x) : l.map f = l := by
  induction l with
  | nil => rfl
  | cons x t ih =>
      simp only [List.map_cons]
      rw [h x (by simp), ih (fun y hy => h y (by simp [hy]))]

/-- The sheet-count invariant of the claims. -/
def sheetCountOk (s : DocumentState) : Prop :=
  s.metadata.sheetCount = s.sheets.length

/-- Validity of the active sheet id: whenever sheets exist, activeSheetId
names one of them. -/
def activeOk (s : DocumentState) : Prop :=
  s.sheets ≠ [] → ∃ sh ∈ s.sheets, s.activeSheetId = sh.sheetId

instance decidableActiveOk (s : DocumentState) : Decidable (activeOk s) := by
  unfold activeOk
  infer_instance

/-- Application of a list of timestamped actions, left to right. -/
def runActions (s : DocumentState) (l : List (DocumentAction × String)) :
    DocumentState :=
  l.foldl (fun st p => documentReducer st p.1 p.2) s

/-- Whether an action is ADD_SHEET or REMOVE_SHEET. -/
def isSheetAction : DocumentAction → Bool
  | .ADD_SHEET _ => true
  | .REMOVE_SHEET _ => true
  | _ => false

/-- The per-sheet update pattern preserves validity of the active sheet id
whenever the rewriting function preserves sheet ids. -/
theorem activeOk_mapSheet (s : DocumentState) (sid : String)
    (f : SheetData → SheetData) (hf : ∀ sh, (f sh).sheetId = sh.sheetId)
    (m : DocumentMetadata) (h : activeOk s) :
    activeOk { s with sheets := mapSheet s.sheets sid f, metadata := m } := by
  intro hne
  have hsne : s.sheets ≠ [] := by
    intro h0
    exact hne (by simp [mapSheet, h0])
  obtain ⟨sh, hmem, hid⟩ := h hsne
  refine ⟨if sh.sheetId == sid then f sh else sh,
    List.mem_map_of_mem _ hmem, ?_⟩
  cases hc : sh.sheetId == sid <;> simp [hc, hf sh] <;> exact hid

/-- The safety condition on an action under which the reducer preserves
validity of the active sheet id: a full-state replacement must itself be
valid, SET_ACTIVE_SHEET must name an existing sheet, and ADD_SHEET must
not be the first sheet of an empty document; every other action is safe
unconditionally. -/
def preservesActive (s : DocumentState) : DocumentAction → Prop
  | .SET_DOCUMENT d => activeOk d
  | .RESTORE_FROM_IPFS d => activeOk d
  | .SET_ACTIVE_SHEET i => ∃ sh ∈ s.sheets, i = sh.sheetId
  | .ADD_SHEET _ => s.sheets ≠ []
  | _ => True

/-- Claim C8 (amended): validity of the active sheet id is not an
unconditional invariant; it is preserved by every action except
SET_ACTIVE_SHEET with an id that names no sheet, ADD_SHEET on a document
with no sheets, and full-state replacement with an invalid payload.
Under the safety condition preservesActive the invariant carries over
every reduction step, and in particular REMOVE_SHEET always preserves
it. -/
theorem claim_C8 (s : DocumentState) (a : DocumentAction) (now : String)
    (hs : activeOk s) (hp : preservesActive s a) :
    activeOk (documentReducer s a now) := by
  cases a with
  | SET_DOCUMENT d => exact hp
  | RESTORE_FROM_IPFS d => exact hp
  | UPDATE_METADATA p => exact hs
  | ADD_SHEET p =>
      intro hne
      obtain ⟨sh, hm, hid⟩ := hs hp
      exact ⟨sh, by simp [documentReducer, hm], hid⟩
  | REMOVE_SHEET id =>
      simp only [documentReducer]
      intro hne
      cases hF : s.sheets.filter (fun sh => sh.sheetId != id) with
      | nil => exact absurd hF hne
      | cons sh₀ t =>
          cases hact : s.activeSheetId == id with
          | true =>
              refine ⟨sh₀, by simp [hF], ?_⟩
              simp [hact, hF]
          | false =>
              have hsne : s.sheets ≠ [] := by
                intro h0
                rw [h0] at hF
                simp at hF
              obtain ⟨sh, hm, hid⟩ := hs hsne
              have hane : s.activeSheetId ≠ id := by
                intro e
                rw [e] at hact
                simp at hact
              have hshne : sh.sheetId ≠ id := fun e => hane (hid.trans e)
              refine ⟨sh, ?_, ?_⟩
              · show sh ∈ sh₀ :: t
                rw [← hF]
                refine List.mem_filter.mpr ⟨hm, ?_⟩
                show (sh.sheetId != id) = true
                exact bne_iff_ne.mpr hshne
              · simp only []
                show (if (false = true) then _ else s.activeSheetId) = sh.sheetId
                simp
                exact hid
  | RENAME_SHEET sid name =>
      simp only [documentReducer]
      refine activeOk_mapSheet s sid _ (fun sh => ?_) _ hs
      rfl
  | SET_ACTIVE_SHEET i =>
      intro hne
      obtain ⟨sh, hm, hid⟩ := hp
      exact ⟨sh, hm, hid⟩
  | UPDATE_CELL sid k p =>
      simp only [documentReducer]
      refine activeOk_mapSheet s sid _ (fun sh => ?_) _ hs
      rfl
  | UPDATE_CELLS sid cs =>
      simp only [documentReducer]
      refine activeOk_mapSheet s sid _ (fun sh => ?_) _ hs
      rfl
  | SET_CELL_STYLE sid k st =>
      simp only [documentReducer]
      refine activeOk_mapSheet s sid _ (fun sh => ?_) _ hs
      rfl
  | ADD_IMAGE sid im =>
      simp only [documentReducer]
      refine activeOk_mapSheet s sid _ (fun sh => ?_) _ hs
      rfl
  | UPDATE_IMAGE sid iid u =>
      simp only [documentReducer]
      refine activeOk_mapSheet s sid _ (fun sh => ?_) _ hs
      rfl
  | REMOVE_IMAGE sid iid =>
      simp only [documentReducer]
      refine activeOk_mapSheet s sid _ (fun sh => ?_) _ hs
      rfl
  | ADD_SHAPE sid sh => exact hs
  | UPDATE_SHAPE sid shid u => exact hs
  | REMOVE_SHAPE sid shid => exact hs
  | ADD_CHART sid ch =>
      simp only [documentReducer]
      refine activeOk_mapSheet s sid _ (fun sh => ?_) _ hs
      rfl
  | UPDATE_CHART sid cid u =>
      simp only [documentReducer]
      refine activeOk_mapSheet s sid _ (fun sh => ?_) _ hs
      rfl
  | REMOVE_CHART sid cid =>
      simp only [documentReducer]
      refine activeOk_mapSheet s sid _ (fun sh => ?_) _ hs
      rfl
  | UPDATE_GRID_CONFIG sid cfg =>
      simp only [documentReducer]
      refine activeOk_mapSheet s sid _ (fun sh => ?_) _ hs
      rfl
  | SET_ROW_SIZE sid ri sz =>
      simp only [documentReducer]
      refine activeOk_mapSheet s sid _ (fun sh => ?_) _ hs
      rfl
  | SET_COLUMN_SIZE sid ci sz =>
      simp only [documentReducer]
      refine activeOk_mapSheet s sid _ (fun sh => ?_) _ hs
      rfl
  | ADD_CONDITIONAL_FORMAT sid fm =>
      simp only [documentReducer]
      refine activeOk_mapSheet s sid _ (fun sh => ?_) _ hs
      rfl
  | REMOVE_CONDITIONAL_FORMAT sid fid =>
      simp only [documentReducer]
      refine activeOk_mapSheet s sid _ (fun sh => ?_) _ hs
      rfl
  | SET_DATA_VALIDATION sid k v =>
      simp only [documentReducer]
      refine activeOk_mapSheet s sid _ (fun sh => ?_) _ hs
      rfl
  | SET_SPARKLINE sid k sp =>
      simp only [documentReducer]
      refine activeOk_mapSheet s sid _ (fun sh => ?_) _ hs
      rfl
  | PROTECT_SHEET sid b pw =>
      simp only [documentReducer]
      refine activeOk_mapSheet s sid _ (fun sh => ?_) _ hs
      rfl
  | LOCK_CELLS sid ks lk =>
      simp only [documentReducer]
      refine activeOk_mapSheet s sid _ (fun sh => ?_) _ hs
      rfl

/-- Claim C8, counterexample to the claim as stated: dispatching
SET_ACTIVE_SHEET with an id that names no sheet leaves a non-empty sheet
list whose active sheet id references no sheet. -/
theorem claim_C8_counterexample :
    ¬ activeOk (documentReducer (createInitialState "t0" "0")
      (.SET_ACTIVE_SHEET "ghost") "t0") := by
  decide

/-- Claim C8, witness: the amended preservation theorem applied to the
initial state and a REMOVE_SHEET action. -/
theorem claim_C8_witness :
    activeOk (documentReducer (createInitialState "t0" "0")
      (.REMOVE_SHEET "sheet-1") "t1") :=
  claim_C8 (createInitialState "t0" "0") (.REMOVE_SHEET "sheet-1") "t1"
    (by decide) trivial

instance decidableSheetCountOk (s : DocumentState) :
    Decidable (sheetCountOk s) := by
  unfold sheetCountOk
  infer_instance

/-- A small grid for example documents. -/
def exGrid : GridConfig :=
  { rows := 10, columns := 5, rowSizes := [], columnSizes := [],
    frozenRows := 0, frozenColumns := 0, showGridlines := true,
    showRowHeaders := true, showColumnHeaders := true,
    defaultRowHeight := 24, defaultColumnWidth := 100,
    hiddenRows := [], hiddenColumns := [] }

/-- A bare example sheet with a given id. -/
def exSheet (id : String) : SheetData :=
  { sheetId := id, name := id, visible := true, grid := exGrid,
    cells := [], images := [], shapes := [], charts := [], links := [],
    symbols := [], conditionalFormatting := [] }

/-- Example metadata for a two-sheet document. -/
def exMeta : DocumentMetadata :=
  { documentId := "d", title := "t", owner := "o", createdAt := "t0",
    updatedAt := "t0", theme := "light", sheetCount := 2,
    version := "1.0.0", collaborators := none, permissions := none }

/-- An example document with two sheets, the first one active. -/
def exDoc2 : DocumentState :=
  { documentId := "d", metadata := exMeta,
    sheets := [exSheet "s1", exSheet "s2"], activeSheetId := "s1" }

/-- ADD_SHEET and REMOVE_SHEET recompute the sheet count to the new sheet
list length in the same reduction. -/
theorem sheetCount_step (s : DocumentState) (a : DocumentAction)
    (now : String) (h : isSheetAction a = true) :
    sheetCountOk (documentReducer s a now) := by
  cases a <;> simp [isSheetAction] at h <;>
    simp [documentReducer, sheetCountOk]

/-- Claim C3: from any state whose sheet count matches the sheet list
length, after any finite sequence of ADD_SHEET and REMOVE_SHEET actions
the count matches the length after every action, that is after every
prefix of the sequence. -/
theorem claim_C3 (s : DocumentState) (l : List (DocumentAction × String))
    (hinv : sheetCountOk s) (hl : ∀ p ∈ l, isSheetAction p.1 = true) :
    ∀ l₁ l₂, l = l₁ ++ l₂ → sheetCountOk (runActions s l₁) := by
  intro l₁ l₂ heq
  rcases List.eq_nil_or_concat l₁ with h1 | ⟨l₀, p, h1⟩
  · subst h1
    simpa [runActions] using hinv
  · subst h1
    rw [List.concat_eq_append] at heq ⊢
    have hp : p ∈ l := by
      rw [heq]
      simp
    have hrun : runActions s (l₀ ++ [p]) =
        documentReducer (runActions s l₀) p.1 p.2 := by
      simp [runActions, List.foldl_append]
    rw [hrun]
    exact sheetCount_step _ _ _ (hl p hp)

/-- Claim C3, witness: the invariant holds after each of an ADD_SHEET and
a REMOVE_SHEET applied to the initial state. -/
theorem claim_C3_witness :
    sheetCountOk (runActions (createInitialState "t0" "0")
      [(.ADD_SHEET (exSheet "s2"), "t1"), (.REMOVE_SHEET "sheet-1", "t2")]) :=
  claim_C3 (createInitialState "t0" "0")
    [(.ADD_SHEET (exSheet "s2"), "t1"), (.REMOVE_SHEET "sheet-1", "t2")]
    (by decide) (by decide) _ [] (by simp)

/-- Claim C2: when the upload step rejects, saveToIPFS propagates the
error and the committed state is exactly the pre-save state, so no
version-history entry is recorded and no field changes. -/
theorem claim_C2 (upload : DocumentState → Except String String)
    (s : DocumentState) (now : String) (e : String)
    (h : upload s = .error e) :
    saveToIPFS upload s now = (.error e, s) := by
  simp [saveToIPFS, h]

/-- Claim C2, witness: a save against a rejecting store returns the error
and the untouched initial state. -/
theorem claim_C2_witness :
    saveToIPFS (fun _ => .error "network") (createInitialState "t0" "0") "t1"
      = (.error "network", createInitialState "t0" "0") :=
  claim_C2 (fun _ => .error "network") (createInitialState "t0" "0") "t1"
    "network" rfl

/-- Claim C4: REMOVE_SHEET removes exactly the sheets whose id equals the
payload; when the payload equals the active sheet id the new active sheet
id is the id of the first remaining sheet, or empty when none remain;
otherwise the active sheet id is unchanged. -/
theorem claim_C4 (s : DocumentState) (id now : String) :
    ((documentReducer s (.REMOVE_SHEET id) now).sheets
        = s.sheets.filter (fun sh => sh.sheetId != id))
    ∧ (∀ sh : SheetData,
        sh ∈ (documentReducer s (.REMOVE_SHEET id) now).sheets ↔
          (sh ∈ s.sheets ∧ sh.sheetId ≠ id))
    ∧ (s.activeSheetId = id →
        (((documentReducer s (.REMOVE_SHEET id) now).sheets = [] →
            (documentReducer s (.REMOVE_SHEET id) now).activeSheetId = "")
          ∧ (∀ sh₀ t,
              (documentReducer s (.REMOVE_SHEET id) now).sheets = sh₀ :: t →
                (documentReducer s (.REMOVE_SHEET id) now).activeSheetId
                  = sh₀.sheetId)))
    ∧ (s.activeSheetId ≠ id →
        (documentReducer s (.REMOVE_SHEET id) now).activeSheetId
          = s.activeSheetId) := by
  refine ⟨rfl, ?_, ?_, ?_⟩
  · intro sh
    simp [documentReducer, List.mem_filter, bne_iff_ne]
  · intro hact
    have hb : (s.activeSheetId == id) = true := beq_iff_eq.mpr hact
    constructor
    · intro hnil
      simp only [documentReducer] at hnil ⊢
      simp [hb, hnil]
    · intro sh₀ t hcons
      simp only [documentReducer] at hcons ⊢
      simp [hb, hcons]
  · intro hact
    have hb : (s.activeSheetId == id) = false :=
      beq_eq_false_iff_ne.mpr hact
    simp [documentReducer, hb]

/-- Claim C4, witness: removing the active first sheet of a two-sheet
document makes the second sheet active. -/
theorem claim_C4_witness :
    (documentReducer exDoc2 (.REMOVE_SHEET "s1") "t1").activeSheetId
      = "s2" := by
  have h := (claim_C4 exDoc2 "s1" "t1").2.2.1 rfl
  exact h.2 (exSheet "s2") [] (by decide)

/-- Claim C5: UPDATE_CELL rewrites exactly the target sheet; in it, the
target cell becomes the previous cell (or an empty cell when absent)
merged with the payload; every field absent from the payload is preserved
and every field present overwrites; all other cells are unchanged. -/
theorem claim_C5 (s : DocumentState) (sid cellKey : String)
    (p : CellDataPatch) (now : String) :
    ((documentReducer s (.UPDATE_CELL sid cellKey p) now).sheets
      = s.sheets.map (fun sheet =>
          if sheet.sheetId == sid then updateCellInSheet sheet cellKey p
          else sheet))
    ∧ (∀ sheet : SheetData,
        objGet (updateCellInSheet sheet cellKey p).cells cellKey
          = some (mergeCellData ((objGet sheet.cells cellKey).getD {}) p)
        ∧ (∀ k, k ≠ cellKey →
            objGet (updateCellInSheet sheet cellKey p).cells k
              = objGet sheet.cells k))
    ∧ (∀ c : CellData,
        (p.value = none → (mergeCellData c p).value = c.value)
        ∧ (∀ v, p.value = some v → (mergeCellData c p).value = v)
        ∧ (p.formula = none → (mergeCellData c p).formula = c.formula)
        ∧ (∀ v, p.formula = some v → (mergeCellData c p).formula = some v)
        ∧ (p.type = none → (mergeCellData c p).type = c.type)
        ∧ (∀ v, p.type = some v → (mergeCellData c p).type = some v)
        ∧ (p.style = none → (mergeCellData c p).style = c.style)
        ∧ (∀ v, p.style = some v → (mergeCellData c p).style = some v)
        ∧ (p.comment = none → (mergeCellData c p).comment = c.comment)
        ∧ (∀ v, p.comment = some v → (mergeCellData c p).comment = some v)
        ∧ (p.hyperlink = none → (mergeCellData c p).hyperlink = c.hyperlink)
        ∧ (∀ v, p.hyperlink = some v →
            (mergeCellData c p).hyperlink = some v)
        ∧ (p.validation = none →
            (mergeCellData c p).validation = c.validation)
        ∧ (∀ v, p.validation = some v →
            (mergeCellData c p).validation = some v)
        ∧ (p.mergedWith = none →
            (mergeCellData c p).mergedWith = c.mergedWith)
        ∧ (∀ v, p.mergedWith = some v →
            (mergeCellData c p).mergedWith = some v)
        ∧ (p.isMergeParent = none →
            (mergeCellData c p).isMergeParent = c.isMergeParent)
        ∧ (∀ v, p.isMergeParent = some v →
            (mergeCellData c p).isMergeParent = some v)
        ∧ (p.mergeSpan = none →
            (mergeCellData c p).mergeSpan = c.mergeSpan)
        ∧ (∀ v, p.mergeSpan = some v →
            (mergeCellData c p).mergeSpan = some v)
        ∧ (p.locked = none → (mergeCellData c p).locked = c.locked)
        ∧ (∀ v, p.locked = some v → (mergeCellData c p).locked = some v)
        ∧ (p.hidden = none → (mergeCellData c p).hidden = c.hidden)
        ∧ (∀ v, p.hidden = some v → (mergeCellData c p).hidden = some v)
        ∧ (p.sparkline = none →
            (mergeCellData c p).sparkline = c.sparkline)
        ∧ (∀ v, p.sparkline = some v →
            (mergeCellData c p).sparkline = some v)) := by
  refine ⟨rfl, fun sheet => ⟨objGet_objSet_self _ _ _,
    fun k hk => objGet_objSet_ne _ _ _ _ hk⟩, fun c => ?_⟩
  refine ⟨?_, ?_, ?_, ?_, ?_, ?_, ?_, ?_, ?_, ?_, ?_, ?_, ?_, ?_, ?_, ?_,
    ?_, ?_, ?_, ?_, ?_, ?_, ?_, ?_, ?_, ?_⟩ <;>
    first
      | (intro h; simp [mergeCellData, patchField, h])
      | (intro v h; simp [mergeCellData, patchField, h])

/-- A cell holding a string value and a bold style. -/
def exCell : CellData :=
  { value := .s "x", style := some { bold := some true } }

/-- A sheet holding exCell at key A1. -/
def exSheetC : SheetData := { exSheet "s1" with cells := [("A1", exCell)] }

/-- A document holding exSheetC. -/
def exDocC : DocumentState :=
  { documentId := "d", metadata := exMeta, sheets := [exSheetC],
    activeSheetId := "s1" }

/-- Claim C5, witness: merging a value-only payload into a styled cell
overwrites the value and leaves the style untouched. -/
theorem claim_C5_witness :
    (mergeCellData exCell { value := some (.s "y") }).style = exCell.style
    ∧ (mergeCellData exCell { value := some (.s "y") }).value = .s "y" := by
  have h := (claim_C5 exDocC "s1" "A1"
    { value := some (.s "y") } "t1").2.2 exCell
  exact ⟨h.2.2.2.2.2.2.1 rfl, h.2.1 (.s "y") rfl⟩

/-- Claim C6: for an existing sheet, isCellLocked is true exactly when the
sheet is protected or the cellLocks entry of the key is true; protection
takes precedence over the individual entries. -/
theorem claim_C6 (s : DocumentState) (sid cellKey : String)
    (sheet : SheetData)
    (hfind : s.sheets.find? (fun sh => sh.sheetId == sid) = some sheet) :
    isCellLocked s sid cellKey = true ↔
      (sheet.protectedFlag = some true
        ∨ objGet (sheet.cellLocks.getD []) cellKey = some true) := by
  simp only [isCellLocked, hfind]
  rcases hp : sheet.protectedFlag with _ | b
  · rcases ho : objGet (sheet.cellLocks.getD []) cellKey with _ | c
    · simp [hp, ho]
    · cases c <;> simp [hp, ho]
  · cases b
    · rcases ho : objGet (sheet.cellLocks.getD []) cellKey with _ | c
      · simp [hp, ho]
      · cases c <;> simp [hp, ho]
    · simp [hp]

/-- A fully protected sheet with one unrelated false lock entry. -/
def exSheetP : SheetData :=
  { exSheet "s1" with
    protectedFlag := some true,
    cellLocks := some [("B2", false)] }

/-- A document holding exSheetP. -/
def exDocP : DocumentState :=
  { documentId := "d", metadata := exMeta, sheets := [exSheetP],
    activeSheetId := "s1" }

/-- Claim C6, witness: a protected sheet reports an arbitrary cell locked
even though its cellLocks map does not mention it. -/
theorem claim_C6_witness : isCellLocked exDocP "s1" "Z9" = true := by
  have h := claim_C6 exDocP "s1" "Z9" exSheetP (by decide)
  exact h.mpr (Or.inl rfl)

/-- Claim C10: PROTECT_SHEET overwrites the protection flag and the stored
protection password of every sheet whose id matches with the payload
values; with an absent payload password the stored password is cleared;
other sheets are untouched. -/
theorem claim_C10 (s : DocumentState) (sid : String) (b : Bool)
    (pw : Option String) (now : String) :
    (∀ sh ∈ (documentReducer s (.PROTECT_SHEET sid b pw) now).sheets,
        sh.sheetId = sid →
          sh.protectedFlag = some b ∧ sh.protectionPassword = pw)
    ∧ (∀ sh ∈ s.sheets, sh.sheetId ≠ sid →
        sh ∈ (documentReducer s (.PROTECT_SHEET sid b pw) now).sheets) := by
  constructor
  · intro sh hmem hid
    simp only [documentReducer, mapSheet] at hmem
    obtain ⟨sh₀, hm0, rfl⟩ := List.mem_map.mp hmem
    cases hc : sh₀.sheetId == sid with
    | true => simp [hc]
    | false =>
        simp only [hc, Bool.false_eq_true, if_false] at hid
        have : (sh₀.sheetId == sid) = true := beq_iff_eq.mpr hid
        rw [hc] at this
        exact absurd this (by simp)
  · intro sh hmem hne
    simp only [documentReducer, mapSheet]
    refine List.mem_map.mpr ⟨sh, hmem, ?_⟩
    simp [beq_eq_false_iff_ne.mpr hne]

/-- A sheet storing a protection password. -/
def exSheetPw : SheetData :=
  { exSheet "s1" with protectionPassword := some "secret" }

/-- A document holding exSheetPw. -/
def exDocPw : DocumentState :=
  { documentId := "d", metadata := exMeta, sheets := [exSheetPw],
    activeSheetId := "s1" }

/-- Claim C10, witness: protecting a sheet without a payload password
clears the previously stored password. -/
theorem claim_C10_witness :
    ((documentReducer exDocPw (.PROTECT_SHEET "s1" true none) "t1").sheets.map
        SheetData.protectionPassword) = [none] := by
  have hm : (documentReducer exDocPw
      (.PROTECT_SHEET "s1" true none) "t1").sheets
      = [{ exSheetPw with
           protectedFlag := some true,
           protectionPassword := none }] := by decide
  have h2 := (claim_C10 exDocPw "s1" true none "t1").1
    { exSheetPw with
      protectedFlag := some true,
      protectionPassword := none }
    (by rw [hm]; exact List.mem_singleton.mpr rfl) rfl
  rw [hm]
  simp [h2.2]


/-- Whether an update or remove action targets a sheet id that matches no
sheet, or an entity id (imageId, shapeId, chartId, formatId) that matches
no entity on the targeted sheets; covers every update and remove action
of the action surface that addresses sheet content. -/
def missingTarget (s : DocumentState) : DocumentAction → Bool
  | .UPDATE_CELL sid _ _ => s.sheets.all (fun sh => sh.sheetId != sid)
  | .UPDATE_CELLS sid _ => s.sheets.all (fun sh => sh.sheetId != sid)
  | .UPDATE_IMAGE sid imageId _ =>
      s.sheets.all (fun sh => sh.sheetId != sid
        || sh.images.all (fun img => img.id != imageId))
  | .REMOVE_IMAGE sid imageId =>
      s.sheets.all (fun sh => sh.sheetId != sid
        || sh.images.all (fun img => img.id != imageId))
  | .UPDATE_SHAPE sid shapeId _ =>
      s.sheets.all (fun sh => sh.sheetId != sid
        || sh.shapes.all (fun shp => shp.id != shapeId))
  | .REMOVE_SHAPE sid shapeId =>
      s.sheets.all (fun sh => sh.sheetId != sid
        || sh.shapes.all (fun shp => shp.id != shapeId))
  | .UPDATE_CHART sid chartId _ =>
      s.sheets.all (fun sh => sh.sheetId != sid
        || sh.charts.all (fun ch => ch.id != chartId))
  | .REMOVE_CHART sid chartId =>
      s.sheets.all (fun sh => sh.sheetId != sid
        || sh.charts.all (fun ch => ch.id != chartId))
  | .UPDATE_GRID_CONFIG sid _ => s.sheets.all (fun sh => sh.sheetId != sid)
  | .REMOVE_CONDITIONAL_FORMAT sid formatId =>
      s.sheets.all (fun sh => sh.sheetId != sid
        || sh.conditionalFormatting.all (fun cf => cf.id != formatId))
  | _ => false

/-- Whether an action is UPDATE_SHAPE or REMOVE_SHAPE; the source reducer
switch has no case for them, so they fall through to the input state. -/
def isShapeAction : DocumentAction → Bool
  | .UPDATE_SHAPE _ _ _ => true
  | .REMOVE_SHAPE _ _ => true
  | _ => false

/-- Claim C7 (amended): an update or remove action whose target sheet or
entity does not exist never throws; for the shape actions, which have no
case in the reducer switch, the state is returned entirely unchanged (the
complete no-op the claim states); for every other such action every field
is unchanged except metadata.updatedAt, which the reducer refreshes
unconditionally, so full equality with the input state fails there. -/
theorem claim_C7 (s : DocumentState) (a : DocumentAction) (now : String)
    (h : missingTarget s a = true) :
    documentReducer s a now
      = if isShapeAction a then s
        else { s with metadata := { s.metadata with updatedAt := now } } := by
  cases a with
  | UPDATE_CELL sid k p =>
      rw [if_neg (by simp [isShapeAction])]
      simp only [missingTarget] at h
      have hall := List.all_eq_true.mp h
      simp only [documentReducer, mapSheet, touchMetadata]
      rw [map_eq_self_of_mem (fun sh hm => by
        simp [beq_eq_false_iff_ne.mpr (bne_iff_ne.mp (hall sh hm))])]
  | UPDATE_CELLS sid cs =>
      rw [if_neg (by simp [isShapeAction])]
      simp only [missingTarget] at h
      have hall := List.all_eq_true.mp h
      simp only [documentReducer, mapSheet, touchMetadata]
      rw [map_eq_self_of_mem (fun sh hm => by
        simp [beq_eq_false_iff_ne.mpr (bne_iff_ne.mp (hall sh hm))])]
  | UPDATE_GRID_CONFIG sid cfg =>
      rw [if_neg (by simp [isShapeAction])]
      simp only [missingTarget] at h
      have hall := List.all_eq_true.mp h
      simp only [documentReducer, mapSheet, touchMetadata]
      rw [map_eq_self_of_mem (fun sh hm => by
        simp [beq_eq_false_iff_ne.mpr (bne_iff_ne.mp (hall sh hm))])]
  | UPDATE_IMAGE sid imageId u =>
      rw [if_neg (by simp [isShapeAction])]
      simp only [missingTarget] at h
      have hall := List.all_eq_true.mp h
      simp only [documentReducer, mapSheet, touchMetadata]
      rw [map_eq_self_of_mem ?_]
      intro sh hm
      have hor := hall sh hm
      simp only [Bool.or_eq_true] at hor
      rcases hor with h1 | h2
      · simp [beq_eq_false_iff_ne.mpr (bne_iff_ne.mp h1)]
      · cases hc : sh.sheetId == sid with
        | false => simp [hc]
        | true =>
            simp only [hc, if_true]
            rw [map_eq_self_of_mem (fun img him => by
              simp [beq_eq_false_iff_ne.mpr (bne_iff_ne.mp
                (List.all_eq_true.mp h2 img him))])]
  | REMOVE_IMAGE sid imageId =>
      rw [if_neg (by simp [isShapeAction])]
      simp only [missingTarget] at h
      have hall := List.all_eq_true.mp h
      simp only [documentReducer, mapSheet, touchMetadata]
      rw [map_eq_self_of_mem ?_]
      intro sh hm
      have hor := hall sh hm
      simp only [Bool.or_eq_true] at hor
      rcases hor with h1 | h2
      · simp [beq_eq_false_iff_ne.mpr (bne_iff_ne.mp h1)]
      · cases hc : sh.sheetId == sid with
        | false => simp [hc]
        | true =>
            simp only [hc, if_true]
            rw [List.filter_eq_self.mpr (fun img him =>
              List.all_eq_true.mp h2 img him)]
  | UPDATE_CHART sid chartId u =>
      rw [if_neg (by simp [isShapeAction])]
      simp only [missingTarget] at h
      have hall := List.all_eq_true.mp h
      simp only [documentReducer, mapSheet, touchMetadata]
      rw [map_eq_self_of_mem ?_]
      intro sh hm
      have hor := hall sh hm
      simp only [Bool.or_eq_true] at hor
      rcases hor with h1 | h2
      · simp [beq_eq_false_iff_ne.mpr (bne_iff_ne.mp h1)]
      · cases hc : sh.sheetId == sid with
        | false => simp [hc]
        | true =>
            simp only [hc, if_true]
            rw [map_eq_self_of_mem (fun ch hch => by
              simp [beq_eq_false_iff_ne.mpr (bne_iff_ne.mp
                (List.all_eq_true.mp h2 ch hch))])]
  | REMOVE_CHART sid chartId =>
      rw [if_neg (by simp [isShapeAction])]
      simp only [missingTarget] at h
      have hall := List.all_eq_true.mp h
      simp only [documentReducer, mapSheet, touchMetadata]
      rw [map_eq_self_of_mem ?_]
      intro sh hm
      have hor := hall sh hm
      simp only [Bool.or_eq_true] at hor
      rcases hor with h1 | h2
      · simp [beq_eq_false_iff_ne.mpr (bne_iff_ne.mp h1)]
      · cases hc : sh.sheetId == sid with
        | false => simp [hc]
        | true =>
            simp only [hc, if_true]
            rw [List.filter_eq_self.mpr (fun ch hch =>
              List.all_eq_true.mp h2 ch hch)]
  | REMOVE_CONDITIONAL_FORMAT sid formatId =>
      rw [if_neg (by simp [isShapeAction])]
      simp only [missingTarget] at h
      have hall := List.all_eq_true.mp h
      simp only [documentReducer, mapSheet, touchMetadata]
      rw [map_eq_self_of_mem ?_]
      intro sh hm
      have hor := hall sh hm
      simp only [Bool.or_eq_true] at hor
      rcases hor with h1 | h2
      · simp [beq_eq_false_iff_ne.mpr (bne_iff_ne.mp h1)]
      · cases hc : sh.sheetId == sid with
        | false => simp [hc]
        | true =>
            simp only [hc, if_true]
            rw [List.filter_eq_self.mpr (fun cf hcf =>
              List.all_eq_true.mp h2 cf hcf)]
  | UPDATE_SHAPE sid shapeId u =>
      rw [if_pos (by simp [isShapeAction])]
      rfl
  | REMOVE_SHAPE sid shapeId =>
      rw [if_pos (by simp [isShapeAction])]
      rfl
  | SET_DOCUMENT d => simp [missingTarget] at h
  | UPDATE_METADATA p => simp [missingTarget] at h
  | ADD_SHEET p => simp [missingTarget] at h
  | REMOVE_SHEET id => simp [missingTarget] at h
  | RENAME_SHEET sid name => simp [missingTarget] at h
  | SET_ACTIVE_SHEET i => simp [missingTarget] at h
  | SET_CELL_STYLE sid k st => simp [missingTarget] at h
  | ADD_IMAGE sid im => simp [missingTarget] at h
  | ADD_SHAPE sid sh => simp [missingTarget] at h
  | ADD_CHART sid ch => simp [missingTarget] at h
  | SET_ROW_SIZE sid ri sz => simp [missingTarget] at h
  | SET_COLUMN_SIZE sid ci sz => simp [missingTarget] at h
  | ADD_CONDITIONAL_FORMAT sid fm => simp [missingTarget] at h
  | SET_DATA_VALIDATION sid k v => simp [missingTarget] at h
  | SET_SPARKLINE sid k sp => simp [missingTarget] at h
  | PROTECT_SHEET sid b pw => simp [missingTarget] at h
  | LOCK_CELLS sid ks lk => simp [missingTarget] at h
  | RESTORE_FROM_IPFS d => simp [missingTarget] at h

/-- Claim C7, counterexample to the claim as stated: updating an image on
a sheet id that matches no sheet does not return a state equal to the
input, because metadata.updatedAt is refreshed. -/
theorem claim_C7_counterexample :
    documentReducer exDoc2 (.UPDATE_IMAGE "ghost" "img1" {}) "t1"
      ≠ exDoc2 := by
  decide

/-- Claim C7, witness: a missing-target image update changes nothing but
the timestamp, and a missing-target shape update changes nothing at
all. -/
theorem claim_C7_witness :
    documentReducer exDoc2 (.UPDATE_IMAGE "ghost" "img1" {}) "t1"
      = { exDoc2 with
          metadata := { exDoc2.metadata with updatedAt := "t1" } }
    ∧ documentReducer exDoc2 (.UPDATE_SHAPE "s1" "shp1" {}) "t1"
      = exDoc2 :=
  ⟨claim_C7 exDoc2 (.UPDATE_IMAGE "ghost" "img1" {}) "t1" (by decide),
   claim_C7 exDoc2 (.UPDATE_SHAPE "s1" "shp1" {}) "t1" (by decide)⟩
/-- The value claimed by the spec for a column string: the bijective
base-26 sum of the letter values weighted by decreasing powers of 26. -/
def specColumnValue (l : List Char) : Int :=
  ∑ i in Finset.range l.length, charVal (l.getD i 'A') * 26 ^ (l.length - 1 - i)

/-- Peeling the first letter off the spec sum. -/
theorem specColumnValue_cons (c : Char) (t : List Char) :
    specColumnValue (c :: t)
      = charVal c * 26 ^ t.length + specColumnValue t := by
  unfold specColumnValue
  rw [List.length_cons, Finset.sum_range_succ']
  have h2 : ∀ i ∈ Finset.range t.length,
      charVal ((c :: t).getD (i + 1) 'A') * 26 ^ (t.length + 1 - 1 - (i + 1))
        = charVal (t.getD i 'A') * 26 ^ (t.length - 1 - i) := by
    intro i hi
    have hg : (c :: t).getD (i + 1) 'A' = t.getD i 'A' := rfl
    rw [hg]
    congr 2
    omega
  rw [Finset.sum_congr rfl h2]
  have h3 : t.length + 1 - 1 - 0 = t.length := by omega
  have hg0 : (c :: t).getD 0 'A' = c := rfl
  rw [h3, hg0]
  ring

/-- Horner evaluation of the conversion loop equals the spec sum. -/
theorem columnToIndex_foldl (l : List Char) : ∀ r : Int,
    l.foldl (fun result c => result * 26 + charVal c) r
      = r * 26 ^ l.length + specColumnValue l := by
  induction l with
  | nil =>
      intro r
      simp [specColumnValue]
  | cons c t ih =>
      intro r
      rw [List.foldl_cons, ih, specColumnValue_cons, List.length_cons]
      ring

/-- Claim C9: for a non-empty uppercase string the conversion computes the
bijective base-26 value of the letters minus one; in particular A maps to
0, Z to 25, AA to 26 and AZ to 51. -/
theorem claim_C9 :
    (∀ s : String, s.data ≠ [] → (∀ c ∈ s.data, 'A' ≤ c ∧ c ≤ 'Z') →
      columnToIndex s = specColumnValue s.data - 1)
    ∧ columnToIndex "A" = 0 ∧ columnToIndex "Z" = 25
    ∧ columnToIndex "AA" = 26 ∧ columnToIndex "AZ" = 51 := by
  refine ⟨?_, by decide, by decide, by decide, by decide⟩
  intro s h1 h2
  unfold columnToIndex
  rw [columnToIndex_foldl]
  simp

/-- Claim C9, witness: the conversion theorem applied to the string AZ,
whose value is 51. -/
theorem claim_C9_witness :
    columnToIndex "AZ" = specColumnValue "AZ".data - 1
    ∧ columnToIndex "AZ" = 51 :=
  ⟨claim_C9.1 "AZ" (by decide) (by decide), claim_C9.2.2.2.2⟩

/-- Claim C1: uploading a document and loading the returned content
identifier reconstructs a state equal to the saved one in every schema
field, and restoring it through the reducer replaces the whole state with
exactly that document. -/
theorem claim_C1 (store : IPFSStore) (S T : DocumentState) (now : String) :
    loadDocumentFromIPFS (uploadDocumentToIPFS store S).2
        (uploadDocumentToIPFS store S).1 = some S
    ∧ documentReducer T (.RESTORE_FROM_IPFS S) now = S := by
  constructor
  · show (objGet ((cidOf store, encDocumentState S) :: store.blobs)
        (cidOf store)).bind deserializeDocument = some S
    rw [show objGet ((cidOf store, encDocumentState S) :: store.blobs)
        (cidOf store) = some (encDocumentState S) from by simp [objGet]]
    show deserializeDocument (encDocumentState S) = some S
    have h1 : deserializeDocument (encDocumentState S)
        = some (decDocumentState (encDocumentState S)) := rfl
    rw [h1, rt_documentState]
  · rfl
